import Mathlib

/-!
Verification development for the Pong + Boost game (pongGame.py).

The Python source is shallowly embedded below.  Floating-point arithmetic
is modelled by exact real arithmetic (the spec states its normalization
properties "within floating tolerance", i.e. as ideal real-number facts).
Python's `int()` truncation (toward zero) is modelled by `pyInt`;
`pygame.Rect.colliderect` is modelled faithfully, including its
zero-size-guard and strict overlap comparisons.  The two sources of
randomness (`random.uniform` serve angle, `random.randint` power-up
position) are passed in explicitly as oracle values in `Rng`, with the
documented ranges appearing as hypotheses where a theorem needs them.
-/

namespace Pong

noncomputable section

open Classical

/-- The frozen `Config` dataclass (only the fields the simulation uses). -/
structure Config where
  width : ℝ
  height : ℝ
  paddle_w : ℤ
  paddle_h : ℤ
  paddle_speed : ℝ
  ball_radius : ℤ
  ball_speed : ℝ
  ball_speed_max : ℝ
  score_to_win : ℕ
  powerup_radius : ℤ
  powerup_spawn_every_sec : ℝ
  boost_duration_sec : ℝ
  boost_multiplier : ℝ
  ai_reaction : ℝ
  ai_max_speed_factor : ℝ

/-- The default (and only) configuration constructed by `Config()`. -/
def defaultConfig : Config where
  width := 900
  height := 540
  paddle_w := 14
  paddle_h := 110
  paddle_speed := 420
  ball_radius := 10
  ball_speed := 360
  ball_speed_max := 860
  score_to_win := 7
  powerup_radius := 12
  powerup_spawn_every_sec := 7
  boost_duration_sec := 1.2
  boost_multiplier := 1.35
  ai_reaction := 0.1
  ai_max_speed_factor := 0.92

/-- Python `int()` applied to a float: truncation toward zero. -/
def pyInt (q : ℝ) : ℤ := if 0 ≤ q then ⌊q⌋ else ⌈q⌉

/-- `clamp(v, lo, hi) = max(lo, min(hi, v))` from the source. -/
def clamp (v lo hi : ℝ) : ℝ := max lo (min hi v)

/-- An integer rectangle, as produced by `pygame.Rect`. -/
structure Rect where
  left : ℤ
  top : ℤ
  w : ℤ
  h : ℤ

/-- `rect.right = left + w` (pygame semantics). -/
def Rect.right (a : Rect) : ℤ := a.left + a.w

/-- `rect.bottom = top + h` (pygame semantics). -/
def Rect.bottom (a : Rect) : ℤ := a.top + a.h

/-- `pygame.Rect.colliderect`: zero-sized rects collide with nothing;
otherwise strict overlap on both axes. -/
def Rect.colliderect (a b : Rect) : Prop :=
  a.w ≠ 0 ∧ a.h ≠ 0 ∧ b.w ≠ 0 ∧ b.h ≠ 0 ∧
  a.left < b.left + b.w ∧ a.top < b.top + b.h ∧
  b.left < a.left + a.w ∧ b.top < a.top + a.h

instance (a b : Rect) : Decidable (Rect.colliderect a b) := by
  unfold Rect.colliderect; infer_instance

/-- The `Paddle` dataclass: top-left position, integer size, speed. -/
structure Paddle where
  x : ℝ
  y : ℝ
  w : ℤ
  h : ℤ
  speed : ℝ

/-- `Paddle.rect()`: `pygame.Rect(int(x), int(y), w, h)`. -/
def Paddle.rect (p : Paddle) : Rect := ⟨pyInt p.x, pyInt p.y, p.w, p.h⟩

/-- `Paddle.center_y() = y + h / 2`. -/
def Paddle.center_y (p : Paddle) : ℝ := p.y + (p.h : ℝ) / 2

/-- The `Ball` dataclass: center position, integer radius, direction, speed. -/
structure Ball where
  x : ℝ
  y : ℝ
  r : ℤ
  vx : ℝ
  vy : ℝ
  speed : ℝ

/-- The bounding-box rect built in `update_playing`:
`pygame.Rect(int(x - r), int(y - r), r * 2, r * 2)`. -/
def ballRect (b : Ball) : Rect :=
  ⟨pyInt (b.x - (b.r : ℝ)), pyInt (b.y - (b.r : ℝ)), 2 * b.r, 2 * b.r⟩

/-- The `PowerUp` dataclass. -/
structure PowerUp where
  x : ℝ
  y : ℝ
  r : ℤ
  active : Bool

/-- The `GameState` enumeration. -/
inductive GState where
  | menu
  | playing
  | paused
  | gameover
deriving DecidableEq

/-- All mutable state owned by the `PongGame` controller. -/
structure Game where
  state : GState
  left : Paddle
  right : Paddle
  ball : Ball
  left_score : ℕ
  right_score : ℕ
  powerup : Option PowerUp
  powerup_timer : ℝ
  boost_timer : ℝ

/-- Randomness oracle for one simulation step: the power-up spawn point
(`random.randint` pair) and the serve angle (`random.uniform(-0.35, 0.35)`)
for each of the two possible goal branches. -/
structure Rng where
  spawn_x : ℤ
  spawn_y : ℤ
  angle_left : ℝ
  angle_right : ℝ

/-- `circle_rect_collision(cx, cy, cr, rect)` from the source: clamp the
center into the rectangle and compare the squared distance with `cr * cr`. -/
def circle_rect_collision (cx cy cr : ℝ) (rect : Rect) : Prop :=
  let nearest_x := clamp cx (rect.left : ℝ) (rect.right : ℝ)
  let nearest_y := clamp cy (rect.top : ℝ) (rect.bottom : ℝ)
  (cx - nearest_x) * (cx - nearest_x) + (cy - nearest_y) * (cy - nearest_y) ≤ cr * cr

/-- `reset_round(cfg, ball, serve_to_left)` from the source, with the drawn
serve angle made explicit.  The random `dir_x` returned by
`random_ball_direction` is discarded by the source (`dir_x = -1 if
serve_to_left else 1` overwrites it), so only the angle is passed in. -/
def reset_round (cfg : Config) (ball : Ball) (serve_to_left : Bool) (angle : ℝ) : Ball :=
  let dir_x : ℝ := if serve_to_left then -1 else 1
  let vx := dir_x * Real.cos angle
  let vy := Real.sin angle
  let v : ℝ × ℝ :=
    if Real.sqrt (vx ^ 2 + vy ^ 2) = 0 then (dir_x, 0.1) else (vx, vy)
  let len := Real.sqrt (v.1 ^ 2 + v.2 ^ 2)
  { ball with
      x := cfg.width / 2
      y := cfg.height / 2
      speed := cfg.ball_speed
      vx := v.1 / len
      vy := v.2 / len }

/-- `apply_paddle_bounce(cfg, ball, paddle, is_left)` from the source. -/
def apply_paddle_bounce (cfg : Config) (ball : Ball) (paddle : Paddle)
    (is_left : Bool) : Ball :=
  let vx0 : ℝ := if is_left then |ball.vx| else -|ball.vx|
  let offset := clamp ((ball.y - paddle.center_y) / ((paddle.h : ℝ) / 2)) (-1) 1
  let vy0 := offset * 0.95
  let v : ℝ × ℝ :=
    if Real.sqrt (vx0 ^ 2 + vy0 ^ 2) = 0 then ((if is_left then (1 : ℝ) else -1), 0.1)
    else (vx0, vy0)
  let len := Real.sqrt (v.1 ^ 2 + v.2 ^ 2)
  { ball with
      vx := v.1 / len
      vy := v.2 / len
      speed := min cfg.ball_speed_max (ball.speed * 1.03) }

/-- `ai_move(cfg, ai, ball, dt)` from the source. -/
def ai_move (cfg : Config) (ai : Paddle) (ball : Ball) (dt : ℝ) : Paddle :=
  let target := ball.y
  let desired := ai.center_y + (target - ai.center_y) * (1 - cfg.ai_reaction)
  let y1 :=
    if desired > ai.center_y + 2 then ai.y + ai.speed * cfg.ai_max_speed_factor * dt
    else if desired < ai.center_y - 2 then ai.y - ai.speed * cfg.ai_max_speed_factor * dt
    else ai.y
  { ai with y := clamp y1 0 (cfg.height - (ai.h : ℝ)) }

/-- Held-key state sampled by `pygame.key.get_pressed()`. -/
structure Held where
  w : Bool
  s : Bool
  up : Bool
  down : Bool
  shift : Bool

/-- `PongGame.handle_input(dt)`: move the left paddle by W/S, then either
manual arrows (while SHIFT is held) or the AI for the right paddle; each
path re-clamps the moved paddle. -/
def handle_input (cfg : Config) (g : Game) (k : Held) (dt : ℝ) : Game :=
  let ly0 := if k.w then g.left.y - g.left.speed * dt else g.left.y
  let ly1 := if k.s then ly0 + g.left.speed * dt else ly0
  let left := { g.left with y := clamp ly1 0 (cfg.height - (g.left.h : ℝ)) }
  let right :=
    if k.shift then
      let ry0 := if k.up then g.right.y - g.right.speed * dt else g.right.y
      let ry1 := if k.down then ry0 + g.right.speed * dt else ry0
      { g.right with y := clamp ry1 0 (cfg.height - (g.right.h : ℝ)) }
    else ai_move cfg g.right g.ball dt
  { g with left := left, right := right }

/-- Stage 1 of `update_playing`: accumulate the power-up timer; when no
power-up exists and the timer reached the spawn interval, reset it and
spawn a power-up at the oracle position (`spawn_powerup`). -/
def powerup_spawn_step (cfg : Config) (rng : Rng) (g : Game) (dt : ℝ) : Game :=
  let t := g.powerup_timer + dt
  match g.powerup with
  | none =>
      if t ≥ cfg.powerup_spawn_every_sec then
        { g with
            powerup_timer := 0
            powerup := some ⟨(rng.spawn_x : ℝ), (rng.spawn_y : ℝ), cfg.powerup_radius, true⟩ }
      else { g with powerup_timer := t }
  | some _ => { g with powerup_timer := t }

/-- Stage 2 of `update_playing`: decrement a positive boost timer by `dt`,
flooring at 0. -/
def boost_timer_step (g : Game) (dt : ℝ) : Game :=
  if g.boost_timer > 0 then
    let t := g.boost_timer - dt
    { g with boost_timer := if t ≤ 0 then 0 else t }
  else g

/-- Stage 3 of `update_playing`: advance the ball by its direction times
its (possibly boosted) speed times `dt`. -/
def motion_step (cfg : Config) (g : Game) (dt : ℝ) : Game :=
  let sp := g.ball.speed * (if g.boost_timer > 0 then cfg.boost_multiplier else 1)
  { g with ball := { g.ball with
      x := g.ball.x + g.ball.vx * sp * dt
      y := g.ball.y + g.ball.vy * sp * dt } }

/-- Stage 4 of `update_playing`, first wall test (top). -/
def wall_top (b : Ball) : Ball :=
  if b.y - (b.r : ℝ) ≤ 0 then { b with y := (b.r : ℝ), vy := -b.vy } else b

/-- Stage 4 of `update_playing`, second wall test (bottom). -/
def wall_bottom (cfg : Config) (b : Ball) : Ball :=
  if b.y + (b.r : ℝ) ≥ cfg.height then
    { b with y := cfg.height - (b.r : ℝ), vy := -b.vy }
  else b

/-- Stage 4 of `update_playing`: both sequential wall tests. -/
def wall_step (cfg : Config) (g : Game) : Game :=
  { g with ball := wall_bottom cfg (wall_top g.ball) }

/-- Stage 5a of `update_playing`: left-paddle collision.  The bounding box
must overlap `left.rect()` and the ball must be moving left; then the ball
is snapped to the paddle face and `apply_paddle_bounce` runs. -/
def left_bounce_step (cfg : Config) (g : Game) : Game :=
  if Rect.colliderect (ballRect g.ball) g.left.rect ∧ g.ball.vx < 0 then
    let snapped := { g.ball with x := g.left.x + (g.left.w : ℝ) + (g.ball.r : ℝ) }
    { g with ball := apply_paddle_bounce cfg snapped g.left true }
  else g

/-- Stage 5b of `update_playing`: right-paddle collision, symmetric. -/
def right_bounce_step (cfg : Config) (g : Game) : Game :=
  if Rect.colliderect (ballRect g.ball) g.right.rect ∧ g.ball.vx > 0 then
    let snapped := { g.ball with x := g.right.x - (g.ball.r : ℝ) }
    { g with ball := apply_paddle_bounce cfg snapped g.right false }
  else g

/-- Stage 6 of `update_playing`: power-up contact.  When a power-up exists,
is active, and the center distance is at most the sum of radii, the
power-up is dropped and the boost timer is set to the boost duration. -/
def powerup_contact_step (cfg : Config) (g : Game) : Game :=
  match g.powerup with
  | some pu =>
      if pu.active = true ∧
          Real.sqrt ((g.ball.x - pu.x) ^ 2 + (g.ball.y - pu.y) ^ 2) ≤
            (g.ball.r : ℝ) + (pu.r : ℝ) then
        { g with powerup := none, boost_timer := cfg.boost_duration_sec }
      else g
  | none => g

/-- Stage 7a of `update_playing`: left goal.  If the ball fully left the
arena on the left, the right player scores, the round is re-served toward
the left and the boost timer resets. -/
def goal_left_step (cfg : Config) (rng : Rng) (g : Game) : Game :=
  if g.ball.x + (g.ball.r : ℝ) < 0 then
    { g with
        right_score := g.right_score + 1
        ball := reset_round cfg g.ball true rng.angle_left
        boost_timer := 0 }
  else g

/-- Stage 7b of `update_playing`: right goal, symmetric. -/
def goal_right_step (cfg : Config) (rng : Rng) (g : Game) : Game :=
  if g.ball.x - (g.ball.r : ℝ) > cfg.width then
    { g with
        left_score := g.left_score + 1
        ball := reset_round cfg g.ball false rng.angle_right
        boost_timer := 0 }
  else g

/-- Stage 8 of `update_playing`: if either score reached `score_to_win`,
move to the game-over state. -/
def win_step (cfg : Config) (g : Game) : Game :=
  if cfg.score_to_win ≤ g.left_score ∨ cfg.score_to_win ≤ g.right_score then
    { g with state := GState.gameover }
  else g

/-- Stages 1-3 of `update_playing` (timers and ball motion), before any
collision handling. -/
def pre_collision (cfg : Config) (rng : Rng) (g : Game) (dt : ℝ) : Game :=
  motion_step cfg (boost_timer_step (powerup_spawn_step cfg rng g dt) dt) dt

/-- `PongGame.update_playing(dt)`: the whole simulation step, in source
order. -/
def update_playing (cfg : Config) (rng : Rng) (g : Game) (dt : ℝ) : Game :=
  win_step cfg
    (goal_right_step cfg rng
      (goal_left_step cfg rng
        (powerup_contact_step cfg
          (right_bounce_step cfg
            (left_bounce_step cfg
              (wall_step cfg (pre_collision cfg rng g dt)))))))

/-- `PongGame.restart()`: zero the scores and timers, recenter the paddles,
drop the power-up, re-serve toward the right and return to playing. -/
def restart (cfg : Config) (g : Game) (angle : ℝ) : Game :=
  { g with
      left_score := 0
      right_score := 0
      left := { g.left with y := cfg.height / 2 - (g.left.h : ℝ) / 2 }
      right := { g.right with y := cfg.height / 2 - (g.right.h : ℝ) / 2 }
      powerup := none
      powerup_timer := 0
      boost_timer := 0
      ball := reset_round cfg g.ball false angle
      state := GState.playing }

/-- The discrete key-press events the state machine reacts to. -/
inductive Key where
  | ret
  | p
  | r
  | other
deriving DecidableEq

/-- One `KEYDOWN` event dispatch from `PongGame.run`. -/
def handle_key (cfg : Config) (g : Game) (k : Key) (angle : ℝ) : Game :=
  match g.state, k with
  | GState.menu, Key.ret => { g with state := GState.playing }
  | GState.playing, Key.p => { g with state := GState.paused }
  | GState.paused, Key.p => { g with state := GState.playing }
  | GState.gameover, Key.r => restart cfg g angle
  | _, _ => g

/-- The event loop of one frame: dispatch each pending key press in order. -/
def handle_events (cfg : Config) (g : Game) (ks : List Key) (angle : ℝ) : Game :=
  ks.foldl (fun s k => handle_key cfg s k angle) g

/-- One iteration of `PongGame.run`: drain events, then run input handling
and the simulation step only while in the playing state. -/
def frame (cfg : Config) (rng : Rng) (g : Game) (ks : List Key) (held : Held)
    (dt : ℝ) (angle : ℝ) : Game :=
  let g1 := handle_events cfg g ks angle
  if g1.state = GState.playing then
    update_playing cfg rng (handle_input cfg g1 held dt) dt
  else g1

/-! ### Helper lemmas -/

lemma clamp_lower (v lo hi : ℝ) : lo ≤ clamp v lo hi := le_max_left _ _

lemma clamp_upper (v lo hi : ℝ) (h : lo ≤ hi) : clamp v lo hi ≤ hi :=
  max_le h (min_le_left _ _)

lemma pyInt_intCast (n : ℤ) : pyInt (n : ℝ) = n := by
  unfold pyInt
  split <;> simp

lemma pyInt_eq_of (q : ℝ) (n : ℤ) (h : q = (n : ℝ)) : pyInt q = n := by
  rw [h, pyInt_intCast]

lemma unit_of_sq_pos (x y : ℝ) (h : 0 < x ^ 2 + y ^ 2) :
    (x / Real.sqrt (x ^ 2 + y ^ 2)) ^ 2 + (y / Real.sqrt (x ^ 2 + y ^ 2)) ^ 2 = 1 := by
  have hs : Real.sqrt (x ^ 2 + y ^ 2) ^ 2 = x ^ 2 + y ^ 2 := Real.sq_sqrt h.le
  have hpos : 0 < Real.sqrt (x ^ 2 + y ^ 2) := Real.sqrt_pos.mpr h
  field_simp

lemma sqrt_sq_add_sq_ne_zero (x y : ℝ) (h : 0 < x ^ 2 + y ^ 2) :
    Real.sqrt (x ^ 2 + y ^ 2) ≠ 0 :=
  ne_of_gt (Real.sqrt_pos.mpr h)

lemma cos_pos_of_small (a : ℝ) (h1 : -0.35 ≤ a) (h2 : a ≤ 0.35) : 0 < Real.cos a := by
  have hpi : (3 : ℝ) < Real.pi := Real.pi_gt_three
  apply Real.cos_pos_of_mem_Ioo
  constructor
  · show -(Real.pi / 2) < a
    nlinarith
  · show a < Real.pi / 2
    nlinarith

/-- The normalization inside `reset_round` divides by exactly 1, so the
ball comes out recentered with direction `(±cos angle, sin angle)`. -/
lemma reset_round_eq (cfg : Config) (b : Ball) (stl : Bool) (angle : ℝ) :
    reset_round cfg b stl angle =
      { b with x := cfg.width / 2, y := cfg.height / 2, speed := cfg.ball_speed,
               vx := (if stl = true then (-1 : ℝ) else 1) * Real.cos angle,
               vy := Real.sin angle } := by
  have hone : ((if stl = true then (-1 : ℝ) else 1) * Real.cos angle) ^ 2
      + Real.sin angle ^ 2 = 1 := by
    cases stl <;> simp [mul_pow, Real.cos_sq_add_sin_sq]
  simp only [reset_round]
  rw [hone, Real.sqrt_one]
  simp only [one_ne_zero, if_false]
  rw [hone, Real.sqrt_one]
  simp

/-- The speed update of `apply_paddle_bounce` is unconditional:
3% growth capped at the configured maximum. -/
lemma apply_paddle_bounce_speed (cfg : Config) (b : Ball) (p : Paddle) (il : Bool) :
    (apply_paddle_bounce cfg b p il).speed = min cfg.ball_speed_max (b.speed * 1.03) := rfl

/-- When the incoming horizontal direction is nonzero (which the
moving-toward gates guarantee), the zero-vector fallback of
`apply_paddle_bounce` is dead and the result is the normalized pair. -/
lemma apply_paddle_bounce_eq (cfg : Config) (b : Ball) (p : Paddle) (il : Bool)
    (h : b.vx ≠ 0) :
    apply_paddle_bounce cfg b p il =
      { b with
          vx := (if il = true then |b.vx| else -|b.vx|) /
            Real.sqrt ((if il = true then |b.vx| else -|b.vx|) ^ 2 +
              (clamp ((b.y - p.center_y) / ((p.h : ℝ) / 2)) (-1) 1 * 0.95) ^ 2)
          vy := clamp ((b.y - p.center_y) / ((p.h : ℝ) / 2)) (-1) 1 * 0.95 /
            Real.sqrt ((if il = true then |b.vx| else -|b.vx|) ^ 2 +
              (clamp ((b.y - p.center_y) / ((p.h : ℝ) / 2)) (-1) 1 * 0.95) ^ 2)
          speed := min cfg.ball_speed_max (b.speed * 1.03) } := by
  have hvx : (if il = true then |b.vx| else -|b.vx|) ≠ 0 := by
    cases il <;> simp [abs_ne_zero, h]
  have hpos : 0 < (if il = true then |b.vx| else -|b.vx|) ^ 2 +
      (clamp ((b.y - p.center_y) / ((p.h : ℝ) / 2)) (-1) 1 * 0.95) ^ 2 :=
    add_pos_of_pos_of_nonneg (pow_two_pos_of_ne_zero hvx) (sq_nonneg _)
  have hne : Real.sqrt ((if il = true then |b.vx| else -|b.vx|) ^ 2 +
      (clamp ((b.y - p.center_y) / ((p.h : ℝ) / 2)) (-1) 1 * 0.95) ^ 2) ≠ 0 :=
    ne_of_gt (Real.sqrt_pos.mpr hpos)
  simp only [apply_paddle_bounce]
  rw [if_neg hne]

/-! ### Stage bookkeeping lemmas -/

lemma pyInt_le_of_le (q : ℝ) (n : ℤ) (h : q ≤ (n : ℝ)) : pyInt q ≤ n := by
  unfold pyInt
  split
  · exact_mod_cast le_trans (Int.floor_le q) h
  · exact Int.ceil_le.mpr h

lemma pyInt_nonneg (q : ℝ) (h : 0 ≤ q) : 0 ≤ pyInt q := by
  unfold pyInt
  rw [if_pos h]
  exact Int.floor_nonneg.mpr h

lemma pre_collision_ball_r (cfg : Config) (rng : Rng) (g : Game) (dt : ℝ) :
    (pre_collision cfg rng g dt).ball.r = g.ball.r := by
  unfold pre_collision motion_step boost_timer_step powerup_spawn_step
  cases g.powerup <;> dsimp only <;> split_ifs <;> rfl

lemma pre_collision_left (cfg : Config) (rng : Rng) (g : Game) (dt : ℝ) :
    (pre_collision cfg rng g dt).left = g.left := by
  unfold pre_collision motion_step boost_timer_step powerup_spawn_step
  cases g.powerup <;> dsimp only <;> split_ifs <;> rfl

lemma pre_collision_right (cfg : Config) (rng : Rng) (g : Game) (dt : ℝ) :
    (pre_collision cfg rng g dt).right = g.right := by
  unfold pre_collision motion_step boost_timer_step powerup_spawn_step
  cases g.powerup <;> dsimp only <;> split_ifs <;> rfl

lemma pre_collision_left_score (cfg : Config) (rng : Rng) (g : Game) (dt : ℝ) :
    (pre_collision cfg rng g dt).left_score = g.left_score := by
  unfold pre_collision motion_step boost_timer_step powerup_spawn_step
  cases g.powerup <;> dsimp only <;> split_ifs <;> rfl

lemma pre_collision_right_score (cfg : Config) (rng : Rng) (g : Game) (dt : ℝ) :
    (pre_collision cfg rng g dt).right_score = g.right_score := by
  unfold pre_collision motion_step boost_timer_step powerup_spawn_step
  cases g.powerup <;> dsimp only <;> split_ifs <;> rfl

lemma pre_collision_state (cfg : Config) (rng : Rng) (g : Game) (dt : ℝ) :
    (pre_collision cfg rng g dt).state = g.state := by
  unfold pre_collision motion_step boost_timer_step powerup_spawn_step
  cases g.powerup <;> dsimp only <;> split_ifs <;> rfl

lemma wall_step_ball_x (cfg : Config) (g : Game) :
    (wall_step cfg g).ball.x = g.ball.x := by
  unfold wall_step wall_bottom wall_top
  split_ifs <;> rfl

lemma wall_step_ball_r (cfg : Config) (g : Game) :
    (wall_step cfg g).ball.r = g.ball.r := by
  unfold wall_step wall_bottom wall_top
  split_ifs <;> rfl

lemma wall_step_left (cfg : Config) (g : Game) : (wall_step cfg g).left = g.left := rfl

lemma wall_step_right (cfg : Config) (g : Game) : (wall_step cfg g).right = g.right := rfl

lemma wall_step_left_score (cfg : Config) (g : Game) :
    (wall_step cfg g).left_score = g.left_score := rfl

lemma wall_step_right_score (cfg : Config) (g : Game) :
    (wall_step cfg g).right_score = g.right_score := rfl

lemma wall_step_state (cfg : Config) (g : Game) : (wall_step cfg g).state = g.state := rfl

lemma wall_step_powerup (cfg : Config) (g : Game) :
    (wall_step cfg g).powerup = g.powerup := rfl

lemma wall_step_powerup_timer (cfg : Config) (g : Game) :
    (wall_step cfg g).powerup_timer = g.powerup_timer := rfl

lemma wall_step_boost_timer (cfg : Config) (g : Game) :
    (wall_step cfg g).boost_timer = g.boost_timer := rfl

lemma left_bounce_step_id (cfg : Config) (g : Game)
    (h : ¬(Rect.colliderect (ballRect g.ball) g.left.rect ∧ g.ball.vx < 0)) :
    left_bounce_step cfg g = g := by
  simp only [left_bounce_step]
  rw [if_neg h]

lemma right_bounce_step_id (cfg : Config) (g : Game)
    (h : ¬(Rect.colliderect (ballRect g.ball) g.right.rect ∧ g.ball.vx > 0)) :
    right_bounce_step cfg g = g := by
  simp only [right_bounce_step]
  rw [if_neg h]

lemma powerup_contact_step_ball (cfg : Config) (g : Game) :
    (powerup_contact_step cfg g).ball = g.ball := by
  unfold powerup_contact_step
  cases g.powerup <;> dsimp only <;> split_ifs <;> rfl

lemma powerup_contact_step_left (cfg : Config) (g : Game) :
    (powerup_contact_step cfg g).left = g.left := by
  unfold powerup_contact_step
  cases g.powerup <;> dsimp only <;> split_ifs <;> rfl

lemma powerup_contact_step_right (cfg : Config) (g : Game) :
    (powerup_contact_step cfg g).right = g.right := by
  unfold powerup_contact_step
  cases g.powerup <;> dsimp only <;> split_ifs <;> rfl

lemma powerup_contact_step_left_score (cfg : Config) (g : Game) :
    (powerup_contact_step cfg g).left_score = g.left_score := by
  unfold powerup_contact_step
  cases g.powerup <;> dsimp only <;> split_ifs <;> rfl

lemma powerup_contact_step_right_score (cfg : Config) (g : Game) :
    (powerup_contact_step cfg g).right_score = g.right_score := by
  unfold powerup_contact_step
  cases g.powerup <;> dsimp only <;> split_ifs <;> rfl

lemma powerup_contact_step_state (cfg : Config) (g : Game) :
    (powerup_contact_step cfg g).state = g.state := by
  unfold powerup_contact_step
  cases g.powerup <;> dsimp only <;> split_ifs <;> rfl

lemma powerup_contact_step_powerup_timer (cfg : Config) (g : Game) :
    (powerup_contact_step cfg g).powerup_timer = g.powerup_timer := by
  unfold powerup_contact_step
  cases g.powerup <;> dsimp only <;> split_ifs <;> rfl

lemma goal_left_step_fire (cfg : Config) (rng : Rng) (g : Game)
    (h : g.ball.x + (g.ball.r : ℝ) < 0) :
    goal_left_step cfg rng g =
      { g with
          right_score := g.right_score + 1
          ball := reset_round cfg g.ball true rng.angle_left
          boost_timer := 0 } := by
  unfold goal_left_step
  rw [if_pos h]

lemma goal_left_step_id (cfg : Config) (rng : Rng) (g : Game)
    (h : ¬ g.ball.x + (g.ball.r : ℝ) < 0) :
    goal_left_step cfg rng g = g := by
  unfold goal_left_step
  rw [if_neg h]

lemma goal_right_step_fire (cfg : Config) (rng : Rng) (g : Game)
    (h : g.ball.x - (g.ball.r : ℝ) > cfg.width) :
    goal_right_step cfg rng g =
      { g with
          left_score := g.left_score + 1
          ball := reset_round cfg g.ball false rng.angle_right
          boost_timer := 0 } := by
  unfold goal_right_step
  rw [if_pos h]

lemma goal_right_step_id (cfg : Config) (rng : Rng) (g : Game)
    (h : ¬ g.ball.x - (g.ball.r : ℝ) > cfg.width) :
    goal_right_step cfg rng g = g := by
  unfold goal_right_step
  rw [if_neg h]

lemma reset_round_x (cfg : Config) (b : Ball) (stl : Bool) (a : ℝ) :
    (reset_round cfg b stl a).x = cfg.width / 2 := rfl

lemma reset_round_r (cfg : Config) (b : Ball) (stl : Bool) (a : ℝ) :
    (reset_round cfg b stl a).r = b.r := rfl

lemma win_step_left_score (cfg : Config) (g : Game) :
    (win_step cfg g).left_score = g.left_score := by
  unfold win_step
  split_ifs <;> rfl

lemma win_step_right_score (cfg : Config) (g : Game) :
    (win_step cfg g).right_score = g.right_score := by
  unfold win_step
  split_ifs <;> rfl

lemma win_step_ball (cfg : Config) (g : Game) : (win_step cfg g).ball = g.ball := by
  unfold win_step
  split_ifs <;> rfl

lemma win_step_boost_timer (cfg : Config) (g : Game) :
    (win_step cfg g).boost_timer = g.boost_timer := by
  unfold win_step
  split_ifs <;> rfl

lemma win_step_powerup (cfg : Config) (g : Game) :
    (win_step cfg g).powerup = g.powerup := by
  unfold win_step
  split_ifs <;> rfl

lemma win_step_powerup_timer (cfg : Config) (g : Game) :
    (win_step cfg g).powerup_timer = g.powerup_timer := by
  unfold win_step
  split_ifs <;> rfl

lemma le_pyInt_of_le (n : ℤ) (q : ℝ) (h : (n : ℝ) ≤ q) : n ≤ pyInt q := by
  unfold pyInt
  split
  · exact Int.le_floor.mpr h
  · exact_mod_cast le_trans h (Int.le_ceil q)

lemma not_collide_of_ball_left (b : Ball) (r : Rect)
    (h : (ballRect b).left + (ballRect b).w ≤ r.left) :
    ¬ Rect.colliderect (ballRect b) r :=
  fun hc => absurd hc.2.2.2.2.2.2.1 (not_lt.mpr h)

lemma not_collide_of_ball_right (b : Ball) (r : Rect)
    (h : r.left + r.w ≤ (ballRect b).left) :
    ¬ Rect.colliderect (ballRect b) r :=
  fun hc => absurd hc.2.2.2.2.1 (not_lt.mpr h)

lemma powerup_spawn_step_some (cfg : Config) (rng : Rng) (g : Game) (dt : ℝ)
    (pu : PowerUp) (h : g.powerup = some pu) :
    powerup_spawn_step cfg rng g dt = { g with powerup_timer := g.powerup_timer + dt } := by
  unfold powerup_spawn_step
  rw [h]

lemma powerup_spawn_step_none_small (cfg : Config) (rng : Rng) (g : Game) (dt : ℝ)
    (h : g.powerup = none) (h2 : ¬ g.powerup_timer + dt ≥ cfg.powerup_spawn_every_sec) :
    powerup_spawn_step cfg rng g dt = { g with powerup_timer := g.powerup_timer + dt } := by
  unfold powerup_spawn_step
  rw [h]
  dsimp only
  rw [if_neg h2]

lemma powerup_spawn_step_none_fire (cfg : Config) (rng : Rng) (g : Game) (dt : ℝ)
    (h : g.powerup = none) (h2 : g.powerup_timer + dt ≥ cfg.powerup_spawn_every_sec) :
    powerup_spawn_step cfg rng g dt =
      { g with
          powerup_timer := 0
          powerup := some ⟨(rng.spawn_x : ℝ), (rng.spawn_y : ℝ), cfg.powerup_radius, true⟩ } := by
  unfold powerup_spawn_step
  rw [h]
  dsimp only
  rw [if_pos h2]

lemma boost_timer_step_id (g : Game) (dt : ℝ) (h : ¬ g.boost_timer > 0) :
    boost_timer_step g dt = g := by
  unfold boost_timer_step
  rw [if_neg h]

lemma motion_step_zero (cfg : Config) (g : Game) : motion_step cfg g 0 = g := by
  unfold motion_step
  simp

lemma wall_step_id (cfg : Config) (g : Game)
    (h1 : ¬ g.ball.y - (g.ball.r : ℝ) ≤ 0)
    (h2 : ¬ g.ball.y + (g.ball.r : ℝ) ≥ cfg.height) :
    wall_step cfg g = g := by
  have e1 : wall_top g.ball = g.ball := by
    unfold wall_top
    rw [if_neg h1]
  unfold wall_step
  rw [e1]
  have e2 : wall_bottom cfg g.ball = g.ball := by
    unfold wall_bottom
    rw [if_neg h2]
  rw [e2]

lemma powerup_contact_step_none (cfg : Config) (g : Game) (h : g.powerup = none) :
    powerup_contact_step cfg g = g := by
  unfold powerup_contact_step
  rw [h]

lemma powerup_contact_step_fire (cfg : Config) (g : Game) (pu : PowerUp)
    (h : g.powerup = some pu) (hact : pu.active = true)
    (hd : Real.sqrt ((g.ball.x - pu.x) ^ 2 + (g.ball.y - pu.y) ^ 2) ≤
      (g.ball.r : ℝ) + (pu.r : ℝ)) :
    powerup_contact_step cfg g =
      { g with powerup := none, boost_timer := cfg.boost_duration_sec } := by
  unfold powerup_contact_step
  rw [h]
  dsimp only
  rw [if_pos ⟨hact, hd⟩]

lemma powerup_contact_step_miss (cfg : Config) (g : Game) (pu : PowerUp)
    (h : g.powerup = some pu)
    (hd : ¬ (pu.active = true ∧
      Real.sqrt ((g.ball.x - pu.x) ^ 2 + (g.ball.y - pu.y) ^ 2) ≤
        (g.ball.r : ℝ) + (pu.r : ℝ))) :
    powerup_contact_step cfg g = g := by
  unfold powerup_contact_step
  rw [h]
  dsimp only
  rw [if_neg hd]

lemma win_step_fire (cfg : Config) (g : Game)
    (h : cfg.score_to_win ≤ g.left_score ∨ cfg.score_to_win ≤ g.right_score) :
    win_step cfg g = { g with state := GState.gameover } := by
  unfold win_step
  rw [if_pos h]

lemma win_step_id (cfg : Config) (g : Game)
    (h : ¬(cfg.score_to_win ≤ g.left_score ∨ cfg.score_to_win ≤ g.right_score)) :
    win_step cfg g = g := by
  unfold win_step
  rw [if_neg h]

lemma goal_left_step_powerup (cfg : Config) (rng : Rng) (g : Game) :
    (goal_left_step cfg rng g).powerup = g.powerup := by
  unfold goal_left_step
  split_ifs <;> rfl

lemma goal_left_step_powerup_timer (cfg : Config) (rng : Rng) (g : Game) :
    (goal_left_step cfg rng g).powerup_timer = g.powerup_timer := by
  unfold goal_left_step
  split_ifs <;> rfl

lemma goal_left_step_left (cfg : Config) (rng : Rng) (g : Game) :
    (goal_left_step cfg rng g).left = g.left := by
  unfold goal_left_step
  split_ifs <;> rfl

lemma goal_left_step_right (cfg : Config) (rng : Rng) (g : Game) :
    (goal_left_step cfg rng g).right = g.right := by
  unfold goal_left_step
  split_ifs <;> rfl

lemma goal_left_step_state (cfg : Config) (rng : Rng) (g : Game) :
    (goal_left_step cfg rng g).state = g.state := by
  unfold goal_left_step
  split_ifs <;> rfl

lemma goal_right_step_powerup (cfg : Config) (rng : Rng) (g : Game) :
    (goal_right_step cfg rng g).powerup = g.powerup := by
  unfold goal_right_step
  split_ifs <;> rfl

lemma goal_right_step_powerup_timer (cfg : Config) (rng : Rng) (g : Game) :
    (goal_right_step cfg rng g).powerup_timer = g.powerup_timer := by
  unfold goal_right_step
  split_ifs <;> rfl

lemma goal_right_step_left (cfg : Config) (rng : Rng) (g : Game) :
    (goal_right_step cfg rng g).left = g.left := by
  unfold goal_right_step
  split_ifs <;> rfl

lemma goal_right_step_right (cfg : Config) (rng : Rng) (g : Game) :
    (goal_right_step cfg rng g).right = g.right := by
  unfold goal_right_step
  split_ifs <;> rfl

lemma goal_right_step_state (cfg : Config) (rng : Rng) (g : Game) :
    (goal_right_step cfg rng g).state = g.state := by
  unfold goal_right_step
  split_ifs <;> rfl

/-! ### Claims -/

/-- Claim C3: `reset_round` recenters the ball, resets its speed to the
base configured speed, produces a unit direction vector whose horizontal
sign is negative exactly when serving toward the left, and whose vertical
component equals the sine of the drawn angle, independent of serve side. -/
theorem C3_reset_round_serve (cfg : Config) (b : Ball) (stl : Bool) (angle : ℝ)
    (h1 : -0.35 ≤ angle) (h2 : angle ≤ 0.35) :
    (reset_round cfg b stl angle).x = cfg.width / 2 ∧
    (reset_round cfg b stl angle).y = cfg.height / 2 ∧
    (reset_round cfg b stl angle).speed = cfg.ball_speed ∧
    (reset_round cfg b stl angle).vx ^ 2 + (reset_round cfg b stl angle).vy ^ 2 = 1 ∧
    (if stl then (reset_round cfg b stl angle).vx < 0
      else 0 < (reset_round cfg b stl angle).vx) ∧
    (reset_round cfg b stl angle).vy = Real.sin angle := by
  have hcos : 0 < Real.cos angle := cos_pos_of_small angle h1 h2
  rw [reset_round_eq]
  cases stl <;> simp [mul_pow, Real.cos_sq_add_sin_sq] <;> nlinarith

/-- Witness for C3 at the serve angle 0, serving toward the left. -/
theorem C3_reset_round_serve_witness :
    (reset_round defaultConfig
        ⟨0, 0, 10, 1, 0, 360⟩ true 0).vx ^ 2 +
      (reset_round defaultConfig ⟨0, 0, 10, 1, 0, 360⟩ true 0).vy ^ 2 = 1 ∧
    (reset_round defaultConfig ⟨0, 0, 10, 1, 0, 360⟩ true 0).vx < 0 ∧
    (reset_round defaultConfig ⟨0, 0, 10, 1, 0, 360⟩ true 0).speed = 360 := by
  have h := C3_reset_round_serve defaultConfig ⟨0, 0, 10, 1, 0, 360⟩ true 0
    (by norm_num) (by norm_num)
  refine ⟨h.2.2.2.1, ?_, h.2.2.1⟩
  have := h.2.2.2.2.1
  simpa using this

/-- Claim C4: along any chain of consecutive paddle contacts starting from
base speed, the ball speed follows `min(ball_speed_max, base * 1.03 ^ N)`,
is non-decreasing, and never exceeds `ball_speed_max`. -/
theorem C4_speed_growth (cfg : Config) (b : ℕ → Ball) (p : ℕ → Paddle) (il : ℕ → Bool)
    (hbase : 0 ≤ cfg.ball_speed) (hle : cfg.ball_speed ≤ cfg.ball_speed_max)
    (hrec : ∀ n, b (n + 1) = apply_paddle_bounce cfg (b n) (p n) (il n))
    (h0 : (b 0).speed = cfg.ball_speed) :
    ∀ N, (b N).speed = min cfg.ball_speed_max (cfg.ball_speed * 1.03 ^ N) ∧
      (b N).speed ≤ (b (N + 1)).speed ∧
      (b N).speed ≤ cfg.ball_speed_max := by
  have hmax : (0 : ℝ) ≤ cfg.ball_speed_max := le_trans hbase hle
  have key : ∀ N, (b N).speed = min cfg.ball_speed_max (cfg.ball_speed * 1.03 ^ N) := by
    intro N
    induction N with
    | zero =>
        rw [h0, pow_zero, mul_one, min_eq_right hle]
    | succ N ih =>
        rw [hrec N, apply_paddle_bounce_speed, ih]
        rcases le_or_lt (cfg.ball_speed * 1.03 ^ N) cfg.ball_speed_max with hc | hc
        · rw [min_eq_right hc, pow_succ]
          ring_nf
        · rw [min_eq_left hc.le]
          have h1 : cfg.ball_speed_max ≤ cfg.ball_speed_max * 1.03 := by nlinarith
          have h2 : cfg.ball_speed_max ≤ cfg.ball_speed * 1.03 ^ (N + 1) := by
            rw [pow_succ, ← mul_assoc]
            nlinarith
          rw [min_eq_left h1, min_eq_left h2]
  intro N
  have hN := key N
  have hN1 := key (N + 1)
  have hnonneg : 0 ≤ (b N).speed := by
    rw [hN]
    exact le_min hmax (mul_nonneg hbase (pow_nonneg (by norm_num) N))
  refine ⟨hN, ?_, hN ▸ min_le_left _ _⟩
  rw [hrec N, apply_paddle_bounce_speed]
  exact le_min (hN ▸ min_le_left _ _) (by nlinarith)

/-- A concrete ball for exercising the speed-growth law. -/
def c4_ball : Ball := ⟨450, 270, 10, 1, 0, 360⟩

/-- A concrete paddle for exercising the speed-growth law. -/
def c4_paddle : Paddle := ⟨28, 215, 14, 110, 420⟩

/-- The chain of balls obtained by repeated left-paddle bounces. -/
def c4_seq : ℕ → Ball
  | 0 => c4_ball
  | n + 1 => apply_paddle_bounce defaultConfig (c4_seq n) c4_paddle true

/-- Witness for C4: after two contacts from base speed 360, the
speed equals `min 860 (360 * 1.03 ^ 2)`. -/
theorem C4_speed_growth_witness :
    (c4_seq 2).speed = min (860 : ℝ) (360 * 1.03 ^ 2) := by
  have h := C4_speed_growth defaultConfig c4_seq (fun _ => c4_paddle) (fun _ => true)
    (by norm_num [defaultConfig]) (by norm_num [defaultConfig])
    (fun n => by simp [c4_seq]) (by norm_num [c4_seq, c4_ball, defaultConfig])
  have h2 := (h 2).1
  simpa [defaultConfig] using h2

lemma pyInt_le_self (q : ℝ) (h : 0 ≤ q) : (pyInt q : ℝ) ≤ q := by
  unfold pyInt
  rw [if_pos h]
  exact Int.floor_le q

/-- Claim C1: when the ball has fully exited the left boundary after the
motion phase of a step, the right player's score increments by exactly 1
(the left score unchanged), the ball is re-served toward the left
(negative horizontal direction), and the boost timer is reset to 0;
symmetrically, when it has fully exited the right boundary, the left
player's score increments by exactly 1 (the right score unchanged), the
ball is re-served toward the right (positive horizontal direction), and
the boost timer is reset to 0. -/
theorem C1_goal_detection (g : Game) (rng : Rng) (dt : ℝ)
    (hlx : 0 ≤ g.left.x) (hrx : 0 ≤ g.right.x) (hr : 0 ≤ g.ball.r)
    (hlw : g.left.x + (g.left.w : ℝ) ≤ defaultConfig.width)
    (hrw : g.right.x + (g.right.w : ℝ) ≤ defaultConfig.width)
    (hal1 : -0.35 ≤ rng.angle_left) (hal2 : rng.angle_left ≤ 0.35)
    (har1 : -0.35 ≤ rng.angle_right) (har2 : rng.angle_right ≤ 0.35) :
    ((pre_collision defaultConfig rng g dt).ball.x + ((pre_collision defaultConfig rng g dt).ball.r : ℝ) < 0 →
      (update_playing defaultConfig rng g dt).right_score = g.right_score + 1 ∧
      (update_playing defaultConfig rng g dt).left_score = g.left_score ∧
      (update_playing defaultConfig rng g dt).ball.vx < 0 ∧
      (update_playing defaultConfig rng g dt).boost_timer = 0) ∧
    ((pre_collision defaultConfig rng g dt).ball.x - ((pre_collision defaultConfig rng g dt).ball.r : ℝ) > defaultConfig.width →
      (update_playing defaultConfig rng g dt).left_score = g.left_score + 1 ∧
      (update_playing defaultConfig rng g dt).right_score = g.right_score ∧
      0 < (update_playing defaultConfig rng g dt).ball.vx ∧
      (update_playing defaultConfig rng g dt).boost_timer = 0) := by
  have hx4 : (wall_step defaultConfig (pre_collision defaultConfig rng g dt)).ball.x = (pre_collision defaultConfig rng g dt).ball.x := wall_step_ball_x _ _
  have hr4 : (wall_step defaultConfig (pre_collision defaultConfig rng g dt)).ball.r = (pre_collision defaultConfig rng g dt).ball.r := wall_step_ball_r _ _
  have hr3 : (pre_collision defaultConfig rng g dt).ball.r = g.ball.r := pre_collision_ball_r _ _ _ _
  have h0r : (0 : ℝ) ≤ (g.ball.r : ℝ) := by exact_mod_cast hr
  have h0rA : (0 : ℝ) ≤ ((pre_collision defaultConfig rng g dt).ball.r : ℝ) := by
    rw [hr3]
    exact h0r
  have hWl : (wall_step defaultConfig (pre_collision defaultConfig rng g dt)).left = g.left := by
    rw [wall_step_left, pre_collision_left]
  have hWr : (wall_step defaultConfig (pre_collision defaultConfig rng g dt)).right = g.right := by
    rw [wall_step_right, pre_collision_right]
  have hPball : (powerup_contact_step defaultConfig (wall_step defaultConfig (pre_collision defaultConfig rng g dt))).ball = (wall_step defaultConfig (pre_collision defaultConfig rng g dt)).ball := powerup_contact_step_ball _ _
  constructor
  · intro hpast
    have hpast' : (pre_collision defaultConfig rng g dt).ball.x + (g.ball.r : ℝ) < 0 := by
      rw [← hr3]
      exact hpast
    have hble : (wall_step defaultConfig (pre_collision defaultConfig rng g dt)).ball.x - ((wall_step defaultConfig (pre_collision defaultConfig rng g dt)).ball.r : ℝ) ≤ ((-(2 * g.ball.r) : ℤ) : ℝ) := by
      rw [hx4, hr4, hr3]
      push_cast
      linarith
    have hboxle : pyInt ((wall_step defaultConfig (pre_collision defaultConfig rng g dt)).ball.x - ((wall_step defaultConfig (pre_collision defaultConfig rng g dt)).ball.r : ℝ)) + 2 * (wall_step defaultConfig (pre_collision defaultConfig rng g dt)).ball.r ≤ 0 := by
      have h1 := pyInt_le_of_le _ _ hble
      have h2 : (wall_step defaultConfig (pre_collision defaultConfig rng g dt)).ball.r = g.ball.r := by rw [hr4, hr3]
      omega
    have hnbL : ¬(Rect.colliderect (ballRect (wall_step defaultConfig (pre_collision defaultConfig rng g dt)).ball) (wall_step defaultConfig (pre_collision defaultConfig rng g dt)).left.rect ∧
        (wall_step defaultConfig (pre_collision defaultConfig rng g dt)).ball.vx < 0) := by
      rintro ⟨hc, -⟩
      have h7 : pyInt (wall_step defaultConfig (pre_collision defaultConfig rng g dt)).left.x <
          pyInt ((wall_step defaultConfig (pre_collision defaultConfig rng g dt)).ball.x - ((wall_step defaultConfig (pre_collision defaultConfig rng g dt)).ball.r : ℝ)) + 2 * (wall_step defaultConfig (pre_collision defaultConfig rng g dt)).ball.r :=
        hc.2.2.2.2.2.2.1
      have hpl : 0 ≤ pyInt (wall_step defaultConfig (pre_collision defaultConfig rng g dt)).left.x := by
        rw [hWl]
        exact pyInt_nonneg _ hlx
      omega
    have hnbR : ¬(Rect.colliderect (ballRect (wall_step defaultConfig (pre_collision defaultConfig rng g dt)).ball) (wall_step defaultConfig (pre_collision defaultConfig rng g dt)).right.rect ∧
        (wall_step defaultConfig (pre_collision defaultConfig rng g dt)).ball.vx > 0) := by
      rintro ⟨hc, -⟩
      have h7 : pyInt (wall_step defaultConfig (pre_collision defaultConfig rng g dt)).right.x <
          pyInt ((wall_step defaultConfig (pre_collision defaultConfig rng g dt)).ball.x - ((wall_step defaultConfig (pre_collision defaultConfig rng g dt)).ball.r : ℝ)) + 2 * (wall_step defaultConfig (pre_collision defaultConfig rng g dt)).ball.r :=
        hc.2.2.2.2.2.2.1
      have hpr : 0 ≤ pyInt (wall_step defaultConfig (pre_collision defaultConfig rng g dt)).right.x := by
        rw [hWr]
        exact pyInt_nonneg _ hrx
      omega
    have hfireCond : (powerup_contact_step defaultConfig (wall_step defaultConfig (pre_collision defaultConfig rng g dt))).ball.x + ((powerup_contact_step defaultConfig (wall_step defaultConfig (pre_collision defaultConfig rng g dt))).ball.r : ℝ) < 0 := by
      rw [hPball, hx4, hr4]
      exact hpast
    have hnr : ¬ ({ (powerup_contact_step defaultConfig (wall_step defaultConfig (pre_collision defaultConfig rng g dt))) with
      right_score := (powerup_contact_step defaultConfig (wall_step defaultConfig (pre_collision defaultConfig rng g dt))).right_score + 1
      ball := reset_round defaultConfig (powerup_contact_step defaultConfig (wall_step defaultConfig (pre_collision defaultConfig rng g dt))).ball true rng.angle_left
      boost_timer := 0 } : Game).ball.x - ((({ (powerup_contact_step defaultConfig (wall_step defaultConfig (pre_collision defaultConfig rng g dt))) with
      right_score := (powerup_contact_step defaultConfig (wall_step defaultConfig (pre_collision defaultConfig rng g dt))).right_score + 1
      ball := reset_round defaultConfig (powerup_contact_step defaultConfig (wall_step defaultConfig (pre_collision defaultConfig rng g dt))).ball true rng.angle_left
      boost_timer := 0 } : Game).ball.r : ℝ)) > defaultConfig.width := by
      show ¬ (reset_round defaultConfig (powerup_contact_step defaultConfig (wall_step defaultConfig (pre_collision defaultConfig rng g dt))).ball true rng.angle_left).x -
        ((reset_round defaultConfig (powerup_contact_step defaultConfig (wall_step defaultConfig (pre_collision defaultConfig rng g dt))).ball true rng.angle_left).r : ℝ) >
          defaultConfig.width
      rw [reset_round_x, reset_round_r]
      intro hgt
      rw [show defaultConfig.width = (900 : ℝ) from rfl] at hgt
      norm_num at hgt
      have hPr : (0 : ℝ) ≤ ((powerup_contact_step defaultConfig (wall_step defaultConfig (pre_collision defaultConfig rng g dt))).ball.r : ℝ) := by
        rw [hPball, hr4, hr3]
        exact h0r
      linarith
    have hkey : update_playing defaultConfig rng g dt =
        win_step defaultConfig ({ (powerup_contact_step defaultConfig (wall_step defaultConfig (pre_collision defaultConfig rng g dt))) with
      right_score := (powerup_contact_step defaultConfig (wall_step defaultConfig (pre_collision defaultConfig rng g dt))).right_score + 1
      ball := reset_round defaultConfig (powerup_contact_step defaultConfig (wall_step defaultConfig (pre_collision defaultConfig rng g dt))).ball true rng.angle_left
      boost_timer := 0 }) := by
      unfold update_playing
      rw [left_bounce_step_id _ _ hnbL, right_bounce_step_id _ _ hnbR,
        goal_left_step_fire _ _ _ hfireCond, goal_right_step_id _ _ _ hnr]
    rw [hkey]
    refine ⟨?_, ?_, ?_, ?_⟩
    · rw [win_step_right_score]
      show (powerup_contact_step defaultConfig (wall_step defaultConfig (pre_collision defaultConfig rng g dt))).right_score + 1 = g.right_score + 1
      rw [powerup_contact_step_right_score, wall_step_right_score, pre_collision_right_score]
    · rw [win_step_left_score]
      show (powerup_contact_step defaultConfig (wall_step defaultConfig (pre_collision defaultConfig rng g dt))).left_score = g.left_score
      rw [powerup_contact_step_left_score, wall_step_left_score, pre_collision_left_score]
    · rw [win_step_ball]
      show (reset_round defaultConfig (powerup_contact_step defaultConfig (wall_step defaultConfig (pre_collision defaultConfig rng g dt))).ball true rng.angle_left).vx < 0
      rw [reset_round_eq]
      show (if true = true then (-1 : ℝ) else 1) * Real.cos rng.angle_left < 0
      have hc := cos_pos_of_small rng.angle_left hal1 hal2
      norm_num
      linarith
    · rw [win_step_boost_timer]
  · intro hpastR
    have hw900 : defaultConfig.width = (900 : ℝ) := rfl
    have hble : ((900 : ℤ) : ℝ) ≤ (wall_step defaultConfig (pre_collision defaultConfig rng g dt)).ball.x - ((wall_step defaultConfig (pre_collision defaultConfig rng g dt)).ball.r : ℝ) := by
      rw [hx4, hr4]
      push_cast
      rw [hw900] at hpastR
      linarith
    have hbox900 : 900 ≤ pyInt ((wall_step defaultConfig (pre_collision defaultConfig rng g dt)).ball.x - ((wall_step defaultConfig (pre_collision defaultConfig rng g dt)).ball.r : ℝ)) :=
      le_pyInt_of_le 900 _ hble
    have hnbL : ¬(Rect.colliderect (ballRect (wall_step defaultConfig (pre_collision defaultConfig rng g dt)).ball) (wall_step defaultConfig (pre_collision defaultConfig rng g dt)).left.rect ∧
        (wall_step defaultConfig (pre_collision defaultConfig rng g dt)).ball.vx < 0) := by
      rintro ⟨hc, -⟩
      have h5 : pyInt ((wall_step defaultConfig (pre_collision defaultConfig rng g dt)).ball.x - ((wall_step defaultConfig (pre_collision defaultConfig rng g dt)).ball.r : ℝ)) <
          pyInt (wall_step defaultConfig (pre_collision defaultConfig rng g dt)).left.x + (wall_step defaultConfig (pre_collision defaultConfig rng g dt)).left.w :=
        hc.2.2.2.2.1
      have hpadL : pyInt (wall_step defaultConfig (pre_collision defaultConfig rng g dt)).left.x + (wall_step defaultConfig (pre_collision defaultConfig rng g dt)).left.w ≤ 900 := by
        rw [hWl]
        have hfx : (pyInt g.left.x : ℝ) ≤ g.left.x := pyInt_le_self _ hlx
        have hlw' : g.left.x + (g.left.w : ℝ) ≤ 900 := by
          rw [← hw900]
          exact hlw
        have h1 : ((pyInt g.left.x + g.left.w : ℤ) : ℝ) ≤ 900 := by
          push_cast
          linarith
        exact_mod_cast h1
      omega
    have hnbR : ¬(Rect.colliderect (ballRect (wall_step defaultConfig (pre_collision defaultConfig rng g dt)).ball) (wall_step defaultConfig (pre_collision defaultConfig rng g dt)).right.rect ∧
        (wall_step defaultConfig (pre_collision defaultConfig rng g dt)).ball.vx > 0) := by
      rintro ⟨hc, -⟩
      have h5 : pyInt ((wall_step defaultConfig (pre_collision defaultConfig rng g dt)).ball.x - ((wall_step defaultConfig (pre_collision defaultConfig rng g dt)).ball.r : ℝ)) <
          pyInt (wall_step defaultConfig (pre_collision defaultConfig rng g dt)).right.x + (wall_step defaultConfig (pre_collision defaultConfig rng g dt)).right.w :=
        hc.2.2.2.2.1
      have hpadR : pyInt (wall_step defaultConfig (pre_collision defaultConfig rng g dt)).right.x + (wall_step defaultConfig (pre_collision defaultConfig rng g dt)).right.w ≤ 900 := by
        rw [hWr]
        have hfx : (pyInt g.right.x : ℝ) ≤ g.right.x := pyInt_le_self _ hrx
        have hrw' : g.right.x + (g.right.w : ℝ) ≤ 900 := by
          rw [← hw900]
          exact hrw
        have h1 : ((pyInt g.right.x + g.right.w : ℤ) : ℝ) ≤ 900 := by
          push_cast
          linarith
        exact_mod_cast h1
      omega
    have hnl : ¬ (powerup_contact_step defaultConfig (wall_step defaultConfig (pre_collision defaultConfig rng g dt))).ball.x + ((powerup_contact_step defaultConfig (wall_step defaultConfig (pre_collision defaultConfig rng g dt))).ball.r : ℝ) < 0 := by
      rw [hPball, hx4, hr4]
      intro hlt
      rw [hw900] at hpastR
      linarith
    have hfireR : (powerup_contact_step defaultConfig (wall_step defaultConfig (pre_collision defaultConfig rng g dt))).ball.x - ((powerup_contact_step defaultConfig (wall_step defaultConfig (pre_collision defaultConfig rng g dt))).ball.r : ℝ) > defaultConfig.width := by
      rw [hPball, hx4, hr4]
      exact hpastR
    have hkey : update_playing defaultConfig rng g dt =
        win_step defaultConfig ({ (powerup_contact_step defaultConfig (wall_step defaultConfig (pre_collision defaultConfig rng g dt))) with
      left_score := (powerup_contact_step defaultConfig (wall_step defaultConfig (pre_collision defaultConfig rng g dt))).left_score + 1
      ball := reset_round defaultConfig (powerup_contact_step defaultConfig (wall_step defaultConfig (pre_collision defaultConfig rng g dt))).ball false rng.angle_right
      boost_timer := 0 }) := by
      unfold update_playing
      rw [left_bounce_step_id _ _ hnbL, right_bounce_step_id _ _ hnbR,
        goal_left_step_id _ _ _ hnl, goal_right_step_fire _ _ _ hfireR]
    rw [hkey]
    refine ⟨?_, ?_, ?_, ?_⟩
    · rw [win_step_left_score]
      show (powerup_contact_step defaultConfig (wall_step defaultConfig (pre_collision defaultConfig rng g dt))).left_score + 1 = g.left_score + 1
      rw [powerup_contact_step_left_score, wall_step_left_score, pre_collision_left_score]
    · rw [win_step_right_score]
      show (powerup_contact_step defaultConfig (wall_step defaultConfig (pre_collision defaultConfig rng g dt))).right_score = g.right_score
      rw [powerup_contact_step_right_score, wall_step_right_score, pre_collision_right_score]
    · rw [win_step_ball]
      show 0 < (reset_round defaultConfig (powerup_contact_step defaultConfig (wall_step defaultConfig (pre_collision defaultConfig rng g dt))).ball false rng.angle_right).vx
      rw [reset_round_eq]
      show 0 < (if false = true then (-1 : ℝ) else 1) * Real.cos rng.angle_right
      have hc := cos_pos_of_small rng.angle_right har1 har2
      norm_num
      exact hc
    · rw [win_step_boost_timer]

/-- A game state whose ball is already fully past the left edge. -/
def c1_game : Game where
  state := GState.playing
  left := ⟨28, 215, 14, 110, 420⟩
  right := ⟨858, 215, 14, 110, 420⟩
  ball := ⟨-21, 270, 10, -1, 0, 360⟩
  left_score := 0
  right_score := 0
  powerup := none
  powerup_timer := 0
  boost_timer := 0

/-- A game state whose ball is already fully past the right edge. -/
def c1b_game : Game where
  state := GState.playing
  left := ⟨28, 215, 14, 110, 420⟩
  right := ⟨858, 215, 14, 110, 420⟩
  ball := ⟨921, 270, 10, 1, 0, 360⟩
  left_score := 0
  right_score := 0
  powerup := none
  powerup_timer := 0
  boost_timer := 0

/-- A fixed randomness oracle. -/
def rng0 : Rng := ⟨450, 300, 0, 0⟩

/-- Witness for C1, both boundaries: with the ball at x = -21 (r = 10) and
dt = 0 the step scores for the right player and serves leftward; with the
ball at x = 921 it scores for the left player and serves rightward; the
boost timer is cleared in both cases. -/
theorem C1_goal_detection_witness :
    ((update_playing defaultConfig rng0 c1_game 0).right_score = 1 ∧
     (update_playing defaultConfig rng0 c1_game 0).left_score = 0 ∧
     (update_playing defaultConfig rng0 c1_game 0).ball.vx < 0 ∧
     (update_playing defaultConfig rng0 c1_game 0).boost_timer = 0) ∧
    ((update_playing defaultConfig rng0 c1b_game 0).left_score = 1 ∧
     (update_playing defaultConfig rng0 c1b_game 0).right_score = 0 ∧
     0 < (update_playing defaultConfig rng0 c1b_game 0).ball.vx ∧
     (update_playing defaultConfig rng0 c1b_game 0).boost_timer = 0) := by
  have hL := (C1_goal_detection c1_game rng0 0
    (by norm_num [c1_game]) (by norm_num [c1_game]) (by norm_num [c1_game])
    (by norm_num [c1_game, defaultConfig]) (by norm_num [c1_game, defaultConfig])
    (by norm_num [rng0]) (by norm_num [rng0])
    (by norm_num [rng0]) (by norm_num [rng0])).1
    (by norm_num [pre_collision, powerup_spawn_step, boost_timer_step, motion_step,
      c1_game, rng0, defaultConfig])
  have hR := (C1_goal_detection c1b_game rng0 0
    (by norm_num [c1b_game]) (by norm_num [c1b_game]) (by norm_num [c1b_game])
    (by norm_num [c1b_game, defaultConfig]) (by norm_num [c1b_game, defaultConfig])
    (by norm_num [rng0]) (by norm_num [rng0])
    (by norm_num [rng0]) (by norm_num [rng0])).2
    (by norm_num [pre_collision, powerup_spawn_step, boost_timer_step, motion_step,
      c1b_game, rng0, defaultConfig])
  obtain ⟨h1, h2, h3, h4⟩ := hL
  obtain ⟨h5, h6, h7, h8⟩ := hR
  refine ⟨⟨?_, ?_, h3, h4⟩, ⟨?_, ?_, h7, h8⟩⟩
  · rw [h1]
    norm_num [c1_game]
  · rw [h2]
    norm_num [c1_game]
  · rw [h5]
    norm_num [c1b_game]
  · rw [h6]
    norm_num [c1b_game]

/-- Normalizing a pair by the square root of an equal sum of squares
yields a unit vector. -/
lemma unit_div_len (x y n m : ℝ) (h : 0 < x ^ 2 + y ^ 2)
    (hn : n ^ 2 + m ^ 2 = x ^ 2 + y ^ 2) :
    (n / Real.sqrt (x ^ 2 + y ^ 2)) ^ 2 + (m / Real.sqrt (x ^ 2 + y ^ 2)) ^ 2 = 1 := by
  have hpos := Real.sqrt_pos.mpr h
  field_simp
  exact hn

/-- Specialization of `apply_paddle_bounce_eq` to the left paddle, with
the normalization length written over `vx ^ 2`. -/
lemma apply_paddle_bounce_left (cfg : Config) (b : Ball) (p : Paddle) (h : b.vx ≠ 0) :
    apply_paddle_bounce cfg b p true =
      { b with
          vx := |b.vx| / Real.sqrt (b.vx ^ 2 +
            (clamp ((b.y - p.center_y) / ((p.h : ℝ) / 2)) (-1) 1 * 0.95) ^ 2)
          vy := clamp ((b.y - p.center_y) / ((p.h : ℝ) / 2)) (-1) 1 * 0.95 /
            Real.sqrt (b.vx ^ 2 +
              (clamp ((b.y - p.center_y) / ((p.h : ℝ) / 2)) (-1) 1 * 0.95) ^ 2)
          speed := min cfg.ball_speed_max (b.speed * 1.03) } := by
  rw [apply_paddle_bounce_eq cfg b p true h]
  simp [sq_abs]

/-- Specialization of `apply_paddle_bounce_eq` to the right paddle. -/
lemma apply_paddle_bounce_right (cfg : Config) (b : Ball) (p : Paddle) (h : b.vx ≠ 0) :
    apply_paddle_bounce cfg b p false =
      { b with
          vx := -|b.vx| / Real.sqrt (b.vx ^ 2 +
            (clamp ((b.y - p.center_y) / ((p.h : ℝ) / 2)) (-1) 1 * 0.95) ^ 2)
          vy := clamp ((b.y - p.center_y) / ((p.h : ℝ) / 2)) (-1) 1 * 0.95 /
            Real.sqrt (b.vx ^ 2 +
              (clamp ((b.y - p.center_y) / ((p.h : ℝ) / 2)) (-1) 1 * 0.95) ^ 2)
          speed := min cfg.ball_speed_max (b.speed * 1.03) } := by
  rw [apply_paddle_bounce_eq cfg b p false h]
  simp [sq_abs, neg_sq]

/-- Claim C2: a paddle bounce fires exactly when the ball's bounding box
overlaps that paddle's rectangle and the ball moves toward it; the bounce
snaps the ball just outside the paddle face, points the horizontal
direction away from the paddle, sets the pre-normalization vertical
component to `clamp((y - centerY) / (h/2), -1, 1) * 0.95` (the factor `L`
below is the normalization length), yields a unit direction, and grows the
speed by 3% capped at `ball_speed_max`. -/
theorem C2_paddle_bounce (cfg : Config) (g : Game) :
    ((Rect.colliderect (ballRect g.ball) g.left.rect ∧ g.ball.vx < 0) →
      (left_bounce_step cfg g).ball.x = g.left.x + (g.left.w : ℝ) + (g.ball.r : ℝ) ∧
      0 < (left_bounce_step cfg g).ball.vx ∧
      (left_bounce_step cfg g).ball.vx ^ 2 + (left_bounce_step cfg g).ball.vy ^ 2 = 1 ∧
      (∃ L : ℝ, 0 < L ∧
        (left_bounce_step cfg g).ball.vx * L = |g.ball.vx| ∧
        (left_bounce_step cfg g).ball.vy * L =
          clamp ((g.ball.y - g.left.center_y) / ((g.left.h : ℝ) / 2)) (-1) 1 * 0.95) ∧
      (left_bounce_step cfg g).ball.speed = min cfg.ball_speed_max (g.ball.speed * 1.03)) ∧
    (¬(Rect.colliderect (ballRect g.ball) g.left.rect ∧ g.ball.vx < 0) →
      left_bounce_step cfg g = g) ∧
    ((Rect.colliderect (ballRect g.ball) g.right.rect ∧ g.ball.vx > 0) →
      (right_bounce_step cfg g).ball.x = g.right.x - (g.ball.r : ℝ) ∧
      (right_bounce_step cfg g).ball.vx < 0 ∧
      (right_bounce_step cfg g).ball.vx ^ 2 + (right_bounce_step cfg g).ball.vy ^ 2 = 1 ∧
      (∃ L : ℝ, 0 < L ∧
        (right_bounce_step cfg g).ball.vx * L = -|g.ball.vx| ∧
        (right_bounce_step cfg g).ball.vy * L =
          clamp ((g.ball.y - g.right.center_y) / ((g.right.h : ℝ) / 2)) (-1) 1 * 0.95) ∧
      (right_bounce_step cfg g).ball.speed = min cfg.ball_speed_max (g.ball.speed * 1.03)) ∧
    (¬(Rect.colliderect (ballRect g.ball) g.right.rect ∧ g.ball.vx > 0) →
      right_bounce_step cfg g = g) := by
  refine ⟨?_, ?_, ?_, ?_⟩
  · rintro ⟨hc, hv⟩
    have hne : g.ball.vx ≠ 0 := ne_of_lt hv
    have hb : ({ g.ball with x := g.left.x + (g.left.w : ℝ) + (g.ball.r : ℝ) } : Ball).vx ≠ 0 := hne
    have hstep : left_bounce_step cfg g =
        { g with ball := apply_paddle_bounce cfg { g.ball with x := g.left.x + (g.left.w : ℝ) + (g.ball.r : ℝ) } g.left true } := by
      simp only [left_bounce_step]
      rw [if_pos ⟨hc, hv⟩]
    have hpos : 0 < g.ball.vx ^ 2 +
        (clamp ((g.ball.y - g.left.center_y) / ((g.left.h : ℝ) / 2)) (-1) 1 * 0.95) ^ 2 :=
      add_pos_of_pos_of_nonneg (pow_two_pos_of_ne_zero hne) (sq_nonneg _)
    have hlen : 0 < Real.sqrt (g.ball.vx ^ 2 +
        (clamp ((g.ball.y - g.left.center_y) / ((g.left.h : ℝ) / 2)) (-1) 1 * 0.95) ^ 2) :=
      Real.sqrt_pos.mpr hpos
    have hvx : (left_bounce_step cfg g).ball.vx = |g.ball.vx| / Real.sqrt (g.ball.vx ^ 2 +
        (clamp ((g.ball.y - g.left.center_y) / ((g.left.h : ℝ) / 2)) (-1) 1 * 0.95) ^ 2) := by
      rw [hstep, apply_paddle_bounce_left cfg _ g.left hb]
    have hvy : (left_bounce_step cfg g).ball.vy =
        clamp ((g.ball.y - g.left.center_y) / ((g.left.h : ℝ) / 2)) (-1) 1 * 0.95 /
          Real.sqrt (g.ball.vx ^ 2 +
            (clamp ((g.ball.y - g.left.center_y) / ((g.left.h : ℝ) / 2)) (-1) 1 * 0.95) ^ 2) := by
      rw [hstep, apply_paddle_bounce_left cfg _ g.left hb]
    refine ⟨?_, ?_, ?_, ?_, ?_⟩
    · rw [hstep, apply_paddle_bounce_left cfg _ g.left hb]
    · rw [hvx]
      exact div_pos (abs_pos.mpr hne) hlen
    · rw [hvx, hvy]
      exact unit_div_len _ _ _ _ hpos (by rw [sq_abs])
    · refine ⟨_, hlen, ?_, ?_⟩
      · rw [hvx]
        exact div_mul_cancel₀ _ (ne_of_gt hlen)
      · rw [hvy]
        exact div_mul_cancel₀ _ (ne_of_gt hlen)
    · rw [hstep, apply_paddle_bounce_left cfg _ g.left hb]
  · intro h
    simp only [left_bounce_step]
    rw [if_neg h]
  · rintro ⟨hc, hv⟩
    have hne : g.ball.vx ≠ 0 := ne_of_gt hv
    have hb : ({ g.ball with x := g.right.x - (g.ball.r : ℝ) } : Ball).vx ≠ 0 := hne
    have hstep : right_bounce_step cfg g =
        { g with ball := apply_paddle_bounce cfg { g.ball with x := g.right.x - (g.ball.r : ℝ) } g.right false } := by
      simp only [right_bounce_step]
      rw [if_pos ⟨hc, hv⟩]
    have hpos : 0 < g.ball.vx ^ 2 +
        (clamp ((g.ball.y - g.right.center_y) / ((g.right.h : ℝ) / 2)) (-1) 1 * 0.95) ^ 2 :=
      add_pos_of_pos_of_nonneg (pow_two_pos_of_ne_zero hne) (sq_nonneg _)
    have hlen : 0 < Real.sqrt (g.ball.vx ^ 2 +
        (clamp ((g.ball.y - g.right.center_y) / ((g.right.h : ℝ) / 2)) (-1) 1 * 0.95) ^ 2) :=
      Real.sqrt_pos.mpr hpos
    have hvx : (right_bounce_step cfg g).ball.vx = -|g.ball.vx| / Real.sqrt (g.ball.vx ^ 2 +
        (clamp ((g.ball.y - g.right.center_y) / ((g.right.h : ℝ) / 2)) (-1) 1 * 0.95) ^ 2) := by
      rw [hstep, apply_paddle_bounce_right cfg _ g.right hb]
    have hvy : (right_bounce_step cfg g).ball.vy =
        clamp ((g.ball.y - g.right.center_y) / ((g.right.h : ℝ) / 2)) (-1) 1 * 0.95 /
          Real.sqrt (g.ball.vx ^ 2 +
            (clamp ((g.ball.y - g.right.center_y) / ((g.right.h : ℝ) / 2)) (-1) 1 * 0.95) ^ 2) := by
      rw [hstep, apply_paddle_bounce_right cfg _ g.right hb]
    refine ⟨?_, ?_, ?_, ?_, ?_⟩
    · rw [hstep, apply_paddle_bounce_right cfg _ g.right hb]
    · rw [hvx]
      exact div_neg_of_neg_of_pos (neg_neg_of_pos (abs_pos.mpr hne)) hlen
    · rw [hvx, hvy]
      exact unit_div_len _ _ _ _ hpos (by rw [neg_pow, sq_abs]; ring)
    · refine ⟨_, hlen, ?_, ?_⟩
      · rw [hvx]
        exact div_mul_cancel₀ _ (ne_of_gt hlen)
      · rw [hvy]
        exact div_mul_cancel₀ _ (ne_of_gt hlen)
    · rw [hstep, apply_paddle_bounce_right cfg _ g.right hb]
  · intro h
    simp only [right_bounce_step]
    rw [if_neg h]

/-- A game state with the ball overlapping the left paddle, moving left. -/
def c2_game : Game where
  state := GState.playing
  left := ⟨28, 215, 14, 110, 420⟩
  right := ⟨858, 215, 14, 110, 420⟩
  ball := ⟨40, 270, 10, -1, 0, 360⟩
  left_score := 0
  right_score := 0
  powerup := none
  powerup_timer := 0
  boost_timer := 0

lemma c2_ball_rect : ballRect c2_game.ball = ⟨30, 260, 20, 20⟩ := by
  have e1 : pyInt (c2_game.ball.x - (c2_game.ball.r : ℝ)) = 30 :=
    pyInt_eq_of _ 30 (by norm_num [c2_game])
  have e2 : pyInt (c2_game.ball.y - (c2_game.ball.r : ℝ)) = 260 :=
    pyInt_eq_of _ 260 (by norm_num [c2_game])
  unfold ballRect
  rw [e1, e2]
  norm_num [c2_game]

lemma c2_left_rect : c2_game.left.rect = ⟨28, 215, 14, 110⟩ := by
  have e1 : pyInt c2_game.left.x = 28 := pyInt_eq_of _ 28 (by norm_num [c2_game])
  have e2 : pyInt c2_game.left.y = 215 := pyInt_eq_of _ 215 (by norm_num [c2_game])
  unfold Paddle.rect
  rw [e1, e2]
  norm_num [c2_game]

/-- Witness for C2: the overlapping, leftward-moving ball at (40, 270)
bounces off the left paddle: snapped to x = 52, sent rightward with a unit
direction, speed grown to `min 860 (360 * 1.03)`. -/
theorem C2_paddle_bounce_witness :
    (left_bounce_step defaultConfig c2_game).ball.x = 52 ∧
    0 < (left_bounce_step defaultConfig c2_game).ball.vx ∧
    (left_bounce_step defaultConfig c2_game).ball.vx ^ 2 +
      (left_bounce_step defaultConfig c2_game).ball.vy ^ 2 = 1 ∧
    (left_bounce_step defaultConfig c2_game).ball.speed = min (860 : ℝ) (360 * 1.03) := by
  have hgate : Rect.colliderect (ballRect c2_game.ball) c2_game.left.rect := by
    rw [c2_ball_rect, c2_left_rect]
    decide
  have h := (C2_paddle_bounce defaultConfig c2_game).1 ⟨hgate, by norm_num [c2_game]⟩
  obtain ⟨hx, hvx, hunit, -, hspeed⟩ := h
  refine ⟨?_, hvx, hunit, ?_⟩
  · rw [hx]
    norm_num [c2_game]
  · rw [hspeed]
    norm_num [c2_game, defaultConfig]

/-- Claim C7: in the power-up contact stage of the step, an active
power-up whose center is within the sum of radii of the ball center is
removed and the boost timer is set to the configured boost duration. -/
theorem C7_powerup_contact (cfg : Config) (g : Game) (pu : PowerUp)
    (hpu : g.powerup = some pu) (hact : pu.active = true)
    (hdist : Real.sqrt ((g.ball.x - pu.x) ^ 2 + (g.ball.y - pu.y) ^ 2) ≤
      (g.ball.r : ℝ) + (pu.r : ℝ)) :
    (powerup_contact_step cfg g).powerup = none ∧
    (powerup_contact_step cfg g).boost_timer = cfg.boost_duration_sec := by
  rw [powerup_contact_step_fire cfg g pu hpu hact hdist]
  exact ⟨rfl, rfl⟩

/-- The spec's power-up scenario: power-up at (500, 300) with r = 12 and
the ball exactly on it with r = 10. -/
def c7_game : Game where
  state := GState.playing
  left := ⟨28, 215, 14, 110, 420⟩
  right := ⟨858, 215, 14, 110, 420⟩
  ball := ⟨500, 300, 10, 1, 0, 360⟩
  left_score := 0
  right_score := 0
  powerup := some ⟨500, 300, 12, true⟩
  powerup_timer := 3
  boost_timer := 0

/-- Witness for C7 at the spec's scenario: the power-up is consumed and
the boost timer becomes the boost duration (1.2 s). -/
theorem C7_powerup_contact_witness :
    (powerup_contact_step defaultConfig c7_game).powerup = none ∧
    (powerup_contact_step defaultConfig c7_game).boost_timer = 1.2 := by
  have h := C7_powerup_contact defaultConfig c7_game ⟨500, 300, 12, true⟩ rfl rfl
    (by norm_num [c7_game])
  exact ⟨h.1, h.2⟩

/-- Claim C10: the goal branch changes only the scorer's score, the ball
and the boost timer; the power-up, the spawn timer, the paddles and the
machine state are untouched, and the non-scorer's score is unchanged. -/
theorem C10_goal_frame (cfg : Config) (rng : Rng) (g : Game)
    (hr : 0 ≤ g.ball.r) (hw : 0 ≤ cfg.width) :
    (goal_right_step cfg rng (goal_left_step cfg rng g)).powerup = g.powerup ∧
    (goal_right_step cfg rng (goal_left_step cfg rng g)).powerup_timer = g.powerup_timer ∧
    (goal_right_step cfg rng (goal_left_step cfg rng g)).left = g.left ∧
    (goal_right_step cfg rng (goal_left_step cfg rng g)).right = g.right ∧
    (goal_right_step cfg rng (goal_left_step cfg rng g)).state = g.state ∧
    (g.ball.x + (g.ball.r : ℝ) < 0 →
      (goal_right_step cfg rng (goal_left_step cfg rng g)).right_score = g.right_score + 1 ∧
      (goal_right_step cfg rng (goal_left_step cfg rng g)).left_score = g.left_score) ∧
    (¬ g.ball.x + (g.ball.r : ℝ) < 0 → g.ball.x - (g.ball.r : ℝ) > cfg.width →
      (goal_right_step cfg rng (goal_left_step cfg rng g)).left_score = g.left_score + 1 ∧
      (goal_right_step cfg rng (goal_left_step cfg rng g)).right_score = g.right_score) ∧
    (¬ g.ball.x + (g.ball.r : ℝ) < 0 → ¬ g.ball.x - (g.ball.r : ℝ) > cfg.width →
      goal_right_step cfg rng (goal_left_step cfg rng g) = g) := by
  have h0r : (0 : ℝ) ≤ (g.ball.r : ℝ) := by exact_mod_cast hr
  refine ⟨?_, ?_, ?_, ?_, ?_, ?_, ?_, ?_⟩
  · rw [goal_right_step_powerup, goal_left_step_powerup]
  · rw [goal_right_step_powerup_timer, goal_left_step_powerup_timer]
  · rw [goal_right_step_left, goal_left_step_left]
  · rw [goal_right_step_right, goal_left_step_right]
  · rw [goal_right_step_state, goal_left_step_state]
  · intro hL
    rw [goal_left_step_fire cfg rng g hL]
    have hnr : ¬ ({ g with
        right_score := g.right_score + 1
        ball := reset_round cfg g.ball true rng.angle_left
        boost_timer := 0 } : Game).ball.x -
          ((({ g with
              right_score := g.right_score + 1
              ball := reset_round cfg g.ball true rng.angle_left
              boost_timer := 0 } : Game).ball.r : ℝ)) > cfg.width := by
      show ¬ (reset_round cfg g.ball true rng.angle_left).x -
        ((reset_round cfg g.ball true rng.angle_left).r : ℝ) > cfg.width
      rw [reset_round_x, reset_round_r]
      intro hgt
      linarith
    rw [goal_right_step_id _ _ _ hnr]
    exact ⟨rfl, rfl⟩
  · intro hnL hR
    rw [goal_left_step_id _ _ _ hnL, goal_right_step_fire _ _ _ hR]
    exact ⟨rfl, rfl⟩
  · intro hnL hnR
    rw [goal_left_step_id _ _ _ hnL, goal_right_step_id _ _ _ hnR]

/-- A state with a live power-up and the ball past the left edge. -/
def c10_game : Game where
  state := GState.playing
  left := ⟨28, 215, 14, 110, 420⟩
  right := ⟨858, 215, 14, 110, 420⟩
  ball := ⟨-21, 270, 10, -1, 0, 360⟩
  left_score := 1
  right_score := 2
  powerup := some ⟨500, 300, 12, true⟩
  powerup_timer := 3
  boost_timer := 0.5

/-- Witness for C10: scoring a left goal leaves the live power-up and the
spawn timer untouched while the right score increments. -/
theorem C10_goal_frame_witness :
    (goal_right_step defaultConfig rng0 (goal_left_step defaultConfig rng0 c10_game)).powerup =
      c10_game.powerup ∧
    (goal_right_step defaultConfig rng0 (goal_left_step defaultConfig rng0 c10_game)).powerup_timer =
      c10_game.powerup_timer ∧
    (goal_right_step defaultConfig rng0 (goal_left_step defaultConfig rng0 c10_game)).right_score =
      c10_game.right_score + 1 := by
  have h := C10_goal_frame defaultConfig rng0 c10_game
    (by norm_num [c10_game]) (by norm_num [defaultConfig])
  exact ⟨h.1, h.2.1, (h.2.2.2.2.2.1 (by norm_num [c10_game])).1⟩

lemma boost_timer_step_powerup_timer (g : Game) (dt : ℝ) :
    (boost_timer_step g dt).powerup_timer = g.powerup_timer := by
  unfold boost_timer_step
  split_ifs <;> rfl

lemma motion_step_powerup_timer (cfg : Config) (g : Game) (dt : ℝ) :
    (motion_step cfg g dt).powerup_timer = g.powerup_timer := rfl

lemma left_bounce_step_powerup_timer (cfg : Config) (g : Game) :
    (left_bounce_step cfg g).powerup_timer = g.powerup_timer := by
  unfold left_bounce_step
  split_ifs <;> rfl

lemma right_bounce_step_powerup_timer (cfg : Config) (g : Game) :
    (right_bounce_step cfg g).powerup_timer = g.powerup_timer := by
  unfold right_bounce_step
  split_ifs <;> rfl

lemma apply_paddle_bounce_x (cfg : Config) (b : Ball) (p : Paddle) (il : Bool) :
    (apply_paddle_bounce cfg b p il).x = b.x := rfl

lemma apply_paddle_bounce_y (cfg : Config) (b : Ball) (p : Paddle) (il : Bool) :
    (apply_paddle_bounce cfg b p il).y = b.y := rfl

lemma apply_paddle_bounce_r (cfg : Config) (b : Ball) (p : Paddle) (il : Bool) :
    (apply_paddle_bounce cfg b p il).r = b.r := rfl

/-- The whole simulation step changes the spawn timer exactly as its first
stage does. -/
lemma update_playing_powerup_timer (cfg : Config) (rng : Rng) (g : Game) (dt : ℝ) :
    (update_playing cfg rng g dt).powerup_timer =
      (powerup_spawn_step cfg rng g dt).powerup_timer := by
  unfold update_playing pre_collision
  rw [win_step_powerup_timer, goal_right_step_powerup_timer, goal_left_step_powerup_timer,
    powerup_contact_step_powerup_timer, right_bounce_step_powerup_timer,
    left_bounce_step_powerup_timer, wall_step_powerup_timer, motion_step_powerup_timer,
    boost_timer_step_powerup_timer]

/-- Claim C6 (amended): the spawn timer accumulates `dt` every step and is
zeroed only when a power-up actually spawns (no power-up present and the
accumulated time reached the interval); in particular a step that consumes
a power-up leaves the timer accumulating, it is not restarted. -/
theorem C6_spawn_timer (cfg : Config) (rng : Rng) (g : Game) (dt : ℝ) :
    (g.powerup = none → g.powerup_timer + dt ≥ cfg.powerup_spawn_every_sec →
      (update_playing cfg rng g dt).powerup_timer = 0) ∧
    (g.powerup = none → ¬ g.powerup_timer + dt ≥ cfg.powerup_spawn_every_sec →
      (update_playing cfg rng g dt).powerup_timer = g.powerup_timer + dt) ∧
    (∀ pu : PowerUp, g.powerup = some pu →
      (update_playing cfg rng g dt).powerup_timer = g.powerup_timer + dt) := by
  refine ⟨?_, ?_, ?_⟩
  · intro h1 h2
    rw [update_playing_powerup_timer, powerup_spawn_step_none_fire cfg rng g dt h1 h2]
  · intro h1 h2
    rw [update_playing_powerup_timer, powerup_spawn_step_none_small cfg rng g dt h1 h2]
  · intro pu h1
    rw [update_playing_powerup_timer, powerup_spawn_step_some cfg rng g dt pu h1]

/-- Witness for the amended C6: with no power-up and a small timer the
step accumulates `dt` into the spawn timer. -/
theorem C6_spawn_timer_witness :
    (update_playing defaultConfig rng0 c1_game 1).powerup_timer = 1 := by
  have h := (C6_spawn_timer defaultConfig rng0 c1_game 1).2.1 rfl
    (by norm_num [c1_game, defaultConfig])
  rw [h]
  norm_num [c1_game]

/-- The consumption scenario: a live power-up exactly under the ball while
the spawn timer holds 3 accumulated seconds. -/
def c6_game : Game where
  state := GState.playing
  left := ⟨28, 215, 14, 110, 420⟩
  right := ⟨858, 215, 14, 110, 420⟩
  ball := ⟨500, 300, 10, 1, 0, 360⟩
  left_score := 0
  right_score := 0
  powerup := some ⟨500, 300, 12, true⟩
  powerup_timer := 3
  boost_timer := 0

lemma c6_no_collide_left : ¬ Rect.colliderect (ballRect c6_game.ball) c6_game.left.rect := by
  apply not_collide_of_ball_right
  show pyInt c6_game.left.x + c6_game.left.w ≤ pyInt (c6_game.ball.x - (c6_game.ball.r : ℝ))
  rw [pyInt_eq_of c6_game.left.x 28 (by norm_num [c6_game])]
  have h1 := le_pyInt_of_le 42 (c6_game.ball.x - (c6_game.ball.r : ℝ)) (by norm_num [c6_game])
  have h2 : c6_game.left.w = 14 := rfl
  omega

lemma c6_no_collide_right : ¬ Rect.colliderect (ballRect c6_game.ball) c6_game.right.rect := by
  apply not_collide_of_ball_left
  show pyInt (c6_game.ball.x - (c6_game.ball.r : ℝ)) + 2 * c6_game.ball.r ≤ pyInt c6_game.right.x
  rw [pyInt_eq_of c6_game.right.x 858 (by norm_num [c6_game])]
  have h1 := pyInt_le_of_le (c6_game.ball.x - (c6_game.ball.r : ℝ)) 490 (by norm_num [c6_game])
  have h2 : c6_game.ball.r = 10 := rfl
  omega

/-- Counterexample for C6 as stated: the step that consumes the power-up
(ball on top of it, dt = 0) leaves the spawn timer at its accumulated
value 3 instead of restarting the interval at 0. -/
theorem C6_counterexample :
    (update_playing defaultConfig rng0 c6_game 0).powerup = none ∧
    (update_playing defaultConfig rng0 c6_game 0).boost_timer = defaultConfig.boost_duration_sec ∧
    (update_playing defaultConfig rng0 c6_game 0).powerup_timer = 3 := by
  have e1 : powerup_spawn_step defaultConfig rng0 c6_game 0 = c6_game := by
    rw [powerup_spawn_step_some defaultConfig rng0 c6_game 0 ⟨500, 300, 12, true⟩ rfl, add_zero]
  have e2 : boost_timer_step c6_game 0 = c6_game :=
    boost_timer_step_id _ _ (by norm_num [c6_game])
  have e3 : motion_step defaultConfig c6_game 0 = c6_game := motion_step_zero _ _
  have e4 : wall_step defaultConfig c6_game = c6_game :=
    wall_step_id _ _ (by norm_num [c6_game]) (by norm_num [c6_game, defaultConfig])
  have e5 : left_bounce_step defaultConfig c6_game = c6_game :=
    left_bounce_step_id _ _ (fun hc => c6_no_collide_left hc.1)
  have e6 : right_bounce_step defaultConfig c6_game = c6_game :=
    right_bounce_step_id _ _ (fun hc => c6_no_collide_right hc.1)
  have e7 : powerup_contact_step defaultConfig c6_game =
      { c6_game with powerup := none, boost_timer := defaultConfig.boost_duration_sec } :=
    powerup_contact_step_fire _ _ ⟨500, 300, 12, true⟩ rfl rfl (by norm_num [c6_game])
  have e8 : goal_left_step defaultConfig rng0
      ({ c6_game with powerup := none, boost_timer := defaultConfig.boost_duration_sec }) =
      { c6_game with powerup := none, boost_timer := defaultConfig.boost_duration_sec } :=
    goal_left_step_id _ _ _ (by norm_num [c6_game])
  have e9 : goal_right_step defaultConfig rng0
      ({ c6_game with powerup := none, boost_timer := defaultConfig.boost_duration_sec }) =
      { c6_game with powerup := none, boost_timer := defaultConfig.boost_duration_sec } :=
    goal_right_step_id _ _ _ (by norm_num [c6_game, defaultConfig])
  have e10 : win_step defaultConfig
      ({ c6_game with powerup := none, boost_timer := defaultConfig.boost_duration_sec }) =
      { c6_game with powerup := none, boost_timer := defaultConfig.boost_duration_sec } :=
    win_step_id _ _ (by norm_num [c6_game, defaultConfig])
  have hfinal : update_playing defaultConfig rng0 c6_game 0 =
      { c6_game with powerup := none, boost_timer := defaultConfig.boost_duration_sec } := by
    unfold update_playing pre_collision
    rw [e1, e2, e3, e4, e5, e6, e7, e8, e9, e10]
  rw [hfinal]
  exact ⟨rfl, rfl, rfl⟩

lemma handle_key_gameover_ne_r (cfg : Config) (g : Game) (k : Key) (angle : ℝ)
    (hs : g.state = GState.gameover) (hk : k ≠ Key.r) :
    handle_key cfg g k angle = g := by
  unfold handle_key
  cases k with
  | r => exact absurd rfl hk
  | ret => rw [hs]
  | p => rw [hs]
  | other => rw [hs]

lemma handle_events_gameover (cfg : Config) (g : Game) (ks : List Key) (angle : ℝ)
    (hs : g.state = GState.gameover) (hk : Key.r ∉ ks) :
    handle_events cfg g ks angle = g := by
  induction ks with
  | nil => rfl
  | cons k t ih =>
      have hk1 : k ≠ Key.r := by
        intro h
        exact hk (by rw [h]; exact List.mem_cons_self _ _)
      have ht : Key.r ∉ t := fun h => hk (List.mem_cons_of_mem _ h)
      unfold handle_events
      rw [List.foldl_cons, handle_key_gameover_ne_r cfg g k angle hs hk1]
      exact ih ht

/-- Claim C8: if a score has reached the win threshold at the end of a
simulation step, the step leaves the machine in the game-over state; and a
frame starting in game-over with no restart press leaves both scores and
the state untouched (the simulation step runs only while playing). -/
theorem C8_win_and_freeze (cfg : Config) (rng : Rng) (g : Game) (dt : ℝ)
    (ks : List Key) (held : Held) (angle : ℝ) :
    ((cfg.score_to_win ≤ (update_playing cfg rng g dt).left_score ∨
      cfg.score_to_win ≤ (update_playing cfg rng g dt).right_score) →
      (update_playing cfg rng g dt).state = GState.gameover) ∧
    (g.state = GState.gameover → Key.r ∉ ks →
      (frame cfg rng g ks held dt angle).left_score = g.left_score ∧
      (frame cfg rng g ks held dt angle).right_score = g.right_score ∧
      (frame cfg rng g ks held dt angle).state = GState.gameover) := by
  constructor
  · intro h
    unfold update_playing at h ⊢
    rw [win_step_left_score, win_step_right_score] at h
    rw [win_step_fire _ _ h]
  · intro hs hk
    unfold frame
    rw [handle_events_gameover cfg g ks angle hs hk]
    rw [if_neg (by rw [hs]; exact fun h => GState.noConfusion h)]
    exact ⟨rfl, rfl, hs⟩

/-- No keys held. -/
def heldNone : Held := ⟨false, false, false, false, false⟩

/-- A finished match: the right player already reached 7 points. -/
def c8_game : Game where
  state := GState.gameover
  left := ⟨28, 215, 14, 110, 420⟩
  right := ⟨858, 215, 14, 110, 420⟩
  ball := ⟨450, 270, 10, 1, 0, 360⟩
  left_score := 5
  right_score := 7
  powerup := none
  powerup_timer := 0
  boost_timer := 0

lemma c8_no_collide_left : ¬ Rect.colliderect (ballRect c8_game.ball) c8_game.left.rect := by
  apply not_collide_of_ball_right
  show pyInt c8_game.left.x + c8_game.left.w ≤ pyInt (c8_game.ball.x - (c8_game.ball.r : ℝ))
  rw [pyInt_eq_of c8_game.left.x 28 (by norm_num [c8_game])]
  have h1 := le_pyInt_of_le 42 (c8_game.ball.x - (c8_game.ball.r : ℝ)) (by norm_num [c8_game])
  have h2 : c8_game.left.w = 14 := rfl
  omega

lemma c8_no_collide_right : ¬ Rect.colliderect (ballRect c8_game.ball) c8_game.right.rect := by
  apply not_collide_of_ball_left
  show pyInt (c8_game.ball.x - (c8_game.ball.r : ℝ)) + 2 * c8_game.ball.r ≤ pyInt c8_game.right.x
  rw [pyInt_eq_of c8_game.right.x 858 (by norm_num [c8_game])]
  have h1 := pyInt_le_of_le (c8_game.ball.x - (c8_game.ball.r : ℝ)) 440 (by norm_num [c8_game])
  have h2 : c8_game.ball.r = 10 := rfl
  omega

lemma c8_step_eval : update_playing defaultConfig rng0 c8_game 0 =
    { c8_game with state := GState.gameover } := by
  have e1 : powerup_spawn_step defaultConfig rng0 c8_game 0 = c8_game := by
    rw [powerup_spawn_step_none_small defaultConfig rng0 c8_game 0 rfl
      (by norm_num [c8_game, defaultConfig]), add_zero]
  have e2 : boost_timer_step c8_game 0 = c8_game :=
    boost_timer_step_id _ _ (by norm_num [c8_game])
  have e3 : motion_step defaultConfig c8_game 0 = c8_game := motion_step_zero _ _
  have e4 : wall_step defaultConfig c8_game = c8_game :=
    wall_step_id _ _ (by norm_num [c8_game]) (by norm_num [c8_game, defaultConfig])
  have e5 : left_bounce_step defaultConfig c8_game = c8_game :=
    left_bounce_step_id _ _ (fun hc => c8_no_collide_left hc.1)
  have e6 : right_bounce_step defaultConfig c8_game = c8_game :=
    right_bounce_step_id _ _ (fun hc => c8_no_collide_right hc.1)
  have e7 : powerup_contact_step defaultConfig c8_game = c8_game :=
    powerup_contact_step_none _ _ rfl
  have e8 : goal_left_step defaultConfig rng0 c8_game = c8_game :=
    goal_left_step_id _ _ _ (by norm_num [c8_game])
  have e9 : goal_right_step defaultConfig rng0 c8_game = c8_game :=
    goal_right_step_id _ _ _ (by norm_num [c8_game, defaultConfig])
  have e10 : win_step defaultConfig c8_game = { c8_game with state := GState.gameover } :=
    win_step_fire _ _ (Or.inr (by norm_num [c8_game, defaultConfig]))
  unfold update_playing pre_collision
  rw [e1, e2, e3, e4, e5, e6, e7, e8, e9, e10]

/-- Witness for C8 at a finished match: the step reports game over, and a
frame with only a pause press changes neither score nor the state. -/
theorem C8_win_and_freeze_witness :
    (update_playing defaultConfig rng0 c8_game 0).state = GState.gameover ∧
    (frame defaultConfig rng0 c8_game [Key.p] heldNone 0 0).left_score = 5 ∧
    (frame defaultConfig rng0 c8_game [Key.p] heldNone 0 0).right_score = 7 ∧
    (frame defaultConfig rng0 c8_game [Key.p] heldNone 0 0).state = GState.gameover := by
  have h := C8_win_and_freeze defaultConfig rng0 c8_game 0 [Key.p] heldNone 0
  have ha := h.1 (Or.inr (by rw [c8_step_eval]; norm_num [c8_game, defaultConfig]))
  have hb := h.2 rfl (by decide)
  refine ⟨ha, ?_, ?_, hb.2.2⟩
  · rw [hb.1]
    norm_num [c8_game]
  · rw [hb.2.1]
    norm_num [c8_game]

/-- Claim C9: after `handle_input` (player-controlled left paddle, and the
right paddle under either manual SHIFT control or the AI), each paddle's y
lies in `[0, arenaHeight - paddle.height]`, for any dt. -/
theorem C9_paddle_clamped (cfg : Config) (g : Game) (k : Held) (dt : ℝ)
    (hl : (g.left.h : ℝ) ≤ cfg.height) (hr : (g.right.h : ℝ) ≤ cfg.height) :
    (0 ≤ (handle_input cfg g k dt).left.y ∧
      (handle_input cfg g k dt).left.y ≤ cfg.height - (g.left.h : ℝ)) ∧
    (0 ≤ (handle_input cfg g k dt).right.y ∧
      (handle_input cfg g k dt).right.y ≤ cfg.height - (g.right.h : ℝ)) := by
  obtain ⟨kw, ks2, kup, kdn, ksh⟩ := k
  have hl0 : (0 : ℝ) ≤ cfg.height - (g.left.h : ℝ) := by linarith
  have hr0 : (0 : ℝ) ≤ cfg.height - (g.right.h : ℝ) := by linarith
  refine ⟨⟨?_, ?_⟩, ?_⟩
  · exact clamp_lower _ _ _
  · exact clamp_upper _ _ _ hl0
  · cases ksh with
    | true => exact ⟨clamp_lower _ _ _, clamp_upper _ _ _ hr0⟩
    | false => exact ⟨clamp_lower _ _ _, clamp_upper _ _ _ hr0⟩

/-- Witness for C9 with no keys held (AI drives the right paddle). -/
theorem C9_paddle_clamped_witness :
    (0 ≤ (handle_input defaultConfig c1_game heldNone 0).left.y ∧
      (handle_input defaultConfig c1_game heldNone 0).left.y ≤
        defaultConfig.height - (c1_game.left.h : ℝ)) ∧
    (0 ≤ (handle_input defaultConfig c1_game heldNone 0).right.y ∧
      (handle_input defaultConfig c1_game heldNone 0).right.y ≤
        defaultConfig.height - (c1_game.right.h : ℝ)) :=
  C9_paddle_clamped defaultConfig c1_game heldNone 0
    (by norm_num [c1_game, defaultConfig]) (by norm_num [c1_game, defaultConfig])

/-- Claim C5 (amended): the contact test actually used by the simulation
step is the integer bounding-box overlap test (pygame `colliderect` on the
truncated ball box against the paddle rect), gated on moving toward the
paddle — not `circle_rect_collision`. -/
theorem C5_contact_test_characterization (cfg : Config) (g : Game) :
    ((Rect.colliderect (ballRect g.ball) g.left.rect ∧ g.ball.vx < 0) →
      left_bounce_step cfg g = { g with ball := apply_paddle_bounce cfg { g.ball with x := g.left.x + (g.left.w : ℝ) + (g.ball.r : ℝ) } g.left true }) ∧
    (¬(Rect.colliderect (ballRect g.ball) g.left.rect ∧ g.ball.vx < 0) →
      left_bounce_step cfg g = g) ∧
    ((Rect.colliderect (ballRect g.ball) g.right.rect ∧ g.ball.vx > 0) →
      right_bounce_step cfg g = { g with ball := apply_paddle_bounce cfg { g.ball with x := g.right.x - (g.ball.r : ℝ) } g.right false }) ∧
    (¬(Rect.colliderect (ballRect g.ball) g.right.rect ∧ g.ball.vx > 0) →
      right_bounce_step cfg g = g) := by
  refine ⟨?_, ?_, ?_, ?_⟩
  · intro h
    simp only [left_bounce_step]
    rw [if_pos h]
  · intro h
    simp only [left_bounce_step]
    rw [if_neg h]
  · intro h
    simp only [right_bounce_step]
    rw [if_pos h]
  · intro h
    simp only [right_bounce_step]
    rw [if_neg h]

/-- Witness for the amended C5 at the overlapping state `c2_game`: the
left bounce fires by the box test, the right paddle is untouched. -/
theorem C5_contact_test_witness :
    left_bounce_step defaultConfig c2_game = { c2_game with ball := apply_paddle_bounce defaultConfig { c2_game.ball with x := c2_game.left.x + (c2_game.left.w : ℝ) + (c2_game.ball.r : ℝ) } c2_game.left true } ∧
    right_bounce_step defaultConfig c2_game = c2_game := by
  have h := C5_contact_test_characterization defaultConfig c2_game
  constructor
  · exact h.1 ⟨by rw [c2_ball_rect, c2_left_rect]; decide, by norm_num [c2_game]⟩
  · refine h.2.2.2 ?_
    rintro ⟨-, hv⟩
    norm_num [c2_game] at hv

/-- A corner-overlap state: the ball's bounding box clips the left
paddle's top-right corner while the circle stays clear of it. -/
def c5_game : Game where
  state := GState.playing
  left := ⟨28, 215, 14, 110, 420⟩
  right := ⟨858, 215, 14, 110, 420⟩
  ball := ⟨51, 206, 10, -1, 0, 360⟩
  left_score := 0
  right_score := 0
  powerup := none
  powerup_timer := 0
  boost_timer := 0

lemma c5_ball_rect : ballRect c5_game.ball = ⟨41, 196, 20, 20⟩ := by
  have e1 : pyInt (c5_game.ball.x - (c5_game.ball.r : ℝ)) = 41 :=
    pyInt_eq_of _ 41 (by norm_num [c5_game])
  have e2 : pyInt (c5_game.ball.y - (c5_game.ball.r : ℝ)) = 196 :=
    pyInt_eq_of _ 196 (by norm_num [c5_game])
  unfold ballRect
  rw [e1, e2]
  norm_num [c5_game]

lemma c5_left_rect : c5_game.left.rect = ⟨28, 215, 14, 110⟩ := by
  have e1 : pyInt c5_game.left.x = 28 := pyInt_eq_of _ 28 (by norm_num [c5_game])
  have e2 : pyInt c5_game.left.y = 215 := pyInt_eq_of _ 215 (by norm_num [c5_game])
  unfold Paddle.rect
  rw [e1, e2]
  norm_num [c5_game]

/-- Counterexample for C5 as stated: at `c5_game` the simulation step does
register a left-paddle contact (the ball is snapped to x = 52 and
bounced), although the squared distance from the ball center to the
nearest point of the paddle rectangle exceeds r², i.e.
`circle_rect_collision` is false — the two tests are not equivalent. -/
theorem C5_counterexample :
    c5_game.ball.x = 51 ∧ c5_game.ball.vx < 0 ∧
    (update_playing defaultConfig rng0 c5_game 0).ball.x = 52 ∧
    ¬ circle_rect_collision c5_game.ball.x c5_game.ball.y (c5_game.ball.r : ℝ)
      c5_game.left.rect := by
  have hcol : Rect.colliderect (ballRect c5_game.ball) c5_game.left.rect := by
    rw [c5_ball_rect, c5_left_rect]
    decide
  have hBx : (apply_paddle_bounce defaultConfig { c5_game.ball with x := c5_game.left.x + (c5_game.left.w : ℝ) + (c5_game.ball.r : ℝ) } c5_game.left true).x = 52 := by
    rw [apply_paddle_bounce_x]
    norm_num [c5_game]
  have hBr : (apply_paddle_bounce defaultConfig { c5_game.ball with x := c5_game.left.x + (c5_game.left.w : ℝ) + (c5_game.ball.r : ℝ) } c5_game.left true).r = 10 := by
    rw [apply_paddle_bounce_r]
    norm_num [c5_game]
  have hBrR : ((apply_paddle_bounce defaultConfig { c5_game.ball with x := c5_game.left.x + (c5_game.left.w : ℝ) + (c5_game.ball.r : ℝ) } c5_game.left true).r : ℝ) = 10 := by
    rw [hBr]
    norm_num
  have e1 : powerup_spawn_step defaultConfig rng0 c5_game 0 = c5_game := by
    rw [powerup_spawn_step_none_small defaultConfig rng0 c5_game 0 rfl
      (by norm_num [c5_game, defaultConfig]), add_zero]
  have e2 : boost_timer_step c5_game 0 = c5_game :=
    boost_timer_step_id _ _ (by norm_num [c5_game])
  have e3 : motion_step defaultConfig c5_game 0 = c5_game := motion_step_zero _ _
  have e4 : wall_step defaultConfig c5_game = c5_game :=
    wall_step_id _ _ (by norm_num [c5_game]) (by norm_num [c5_game, defaultConfig])
  have e5 : left_bounce_step defaultConfig c5_game = { c5_game with ball := apply_paddle_bounce defaultConfig { c5_game.ball with x := c5_game.left.x + (c5_game.left.w : ℝ) + (c5_game.ball.r : ℝ) } c5_game.left true } := by
    simp only [left_bounce_step]
    rw [if_pos ⟨hcol, by norm_num [c5_game]⟩]
  have hnor : ¬ Rect.colliderect (ballRect (apply_paddle_bounce defaultConfig { c5_game.ball with x := c5_game.left.x + (c5_game.left.w : ℝ) + (c5_game.ball.r : ℝ) } c5_game.left true)) c5_game.right.rect := by
    apply not_collide_of_ball_left
    show pyInt ((apply_paddle_bounce defaultConfig { c5_game.ball with x := c5_game.left.x + (c5_game.left.w : ℝ) + (c5_game.ball.r : ℝ) } c5_game.left true).x - ((apply_paddle_bounce defaultConfig { c5_game.ball with x := c5_game.left.x + (c5_game.left.w : ℝ) + (c5_game.ball.r : ℝ) } c5_game.left true).r : ℝ)) + 2 * (apply_paddle_bounce defaultConfig { c5_game.ball with x := c5_game.left.x + (c5_game.left.w : ℝ) + (c5_game.ball.r : ℝ) } c5_game.left true).r ≤ pyInt c5_game.right.x
    rw [pyInt_eq_of c5_game.right.x 858 (by norm_num [c5_game])]
    have h1 := pyInt_le_of_le ((apply_paddle_bounce defaultConfig { c5_game.ball with x := c5_game.left.x + (c5_game.left.w : ℝ) + (c5_game.ball.r : ℝ) } c5_game.left true).x - ((apply_paddle_bounce defaultConfig { c5_game.ball with x := c5_game.left.x + (c5_game.left.w : ℝ) + (c5_game.ball.r : ℝ) } c5_game.left true).r : ℝ)) 42 (by rw [hBx, hBrR]; norm_num)
    omega
  have e6 : right_bounce_step defaultConfig ({ c5_game with ball := apply_paddle_bounce defaultConfig { c5_game.ball with x := c5_game.left.x + (c5_game.left.w : ℝ) + (c5_game.ball.r : ℝ) } c5_game.left true }) = { c5_game with ball := apply_paddle_bounce defaultConfig { c5_game.ball with x := c5_game.left.x + (c5_game.left.w : ℝ) + (c5_game.ball.r : ℝ) } c5_game.left true } :=
    right_bounce_step_id _ _ (fun hc => hnor hc.1)
  have e7 : powerup_contact_step defaultConfig ({ c5_game with ball := apply_paddle_bounce defaultConfig { c5_game.ball with x := c5_game.left.x + (c5_game.left.w : ℝ) + (c5_game.ball.r : ℝ) } c5_game.left true }) = { c5_game with ball := apply_paddle_bounce defaultConfig { c5_game.ball with x := c5_game.left.x + (c5_game.left.w : ℝ) + (c5_game.ball.r : ℝ) } c5_game.left true } :=
    powerup_contact_step_none _ _ rfl
  have e8 : goal_left_step defaultConfig rng0 ({ c5_game with ball := apply_paddle_bounce defaultConfig { c5_game.ball with x := c5_game.left.x + (c5_game.left.w : ℝ) + (c5_game.ball.r : ℝ) } c5_game.left true }) = { c5_game with ball := apply_paddle_bounce defaultConfig { c5_game.ball with x := c5_game.left.x + (c5_game.left.w : ℝ) + (c5_game.ball.r : ℝ) } c5_game.left true } := by
    apply goal_left_step_id
    show ¬ (apply_paddle_bounce defaultConfig { c5_game.ball with x := c5_game.left.x + (c5_game.left.w : ℝ) + (c5_game.ball.r : ℝ) } c5_game.left true).x + ((apply_paddle_bounce defaultConfig { c5_game.ball with x := c5_game.left.x + (c5_game.left.w : ℝ) + (c5_game.ball.r : ℝ) } c5_game.left true).r : ℝ) < 0
    rw [hBx, hBrR]
    norm_num
  have e9 : goal_right_step defaultConfig rng0 ({ c5_game with ball := apply_paddle_bounce defaultConfig { c5_game.ball with x := c5_game.left.x + (c5_game.left.w : ℝ) + (c5_game.ball.r : ℝ) } c5_game.left true }) = { c5_game with ball := apply_paddle_bounce defaultConfig { c5_game.ball with x := c5_game.left.x + (c5_game.left.w : ℝ) + (c5_game.ball.r : ℝ) } c5_game.left true } := by
    apply goal_right_step_id
    show ¬ (apply_paddle_bounce defaultConfig { c5_game.ball with x := c5_game.left.x + (c5_game.left.w : ℝ) + (c5_game.ball.r : ℝ) } c5_game.left true).x - ((apply_paddle_bounce defaultConfig { c5_game.ball with x := c5_game.left.x + (c5_game.left.w : ℝ) + (c5_game.ball.r : ℝ) } c5_game.left true).r : ℝ) > defaultConfig.width
    rw [hBx, hBrR]
    norm_num [defaultConfig]
  have e10 : win_step defaultConfig ({ c5_game with ball := apply_paddle_bounce defaultConfig { c5_game.ball with x := c5_game.left.x + (c5_game.left.w : ℝ) + (c5_game.ball.r : ℝ) } c5_game.left true }) = { c5_game with ball := apply_paddle_bounce defaultConfig { c5_game.ball with x := c5_game.left.x + (c5_game.left.w : ℝ) + (c5_game.ball.r : ℝ) } c5_game.left true } :=
    win_step_id _ _ (by norm_num [c5_game, defaultConfig])
  have hfinal : update_playing defaultConfig rng0 c5_game 0 = { c5_game with ball := apply_paddle_bounce defaultConfig { c5_game.ball with x := c5_game.left.x + (c5_game.left.w : ℝ) + (c5_game.ball.r : ℝ) } c5_game.left true } := by
    unfold update_playing pre_collision
    rw [e1, e2, e3, e4, e5, e6, e7, e8, e9, e10]
  refine ⟨rfl, by norm_num [c5_game], ?_, ?_⟩
  · rw [hfinal]
    exact hBx
  · rw [c5_left_rect]
    intro h
    norm_num [circle_rect_collision, clamp, Rect.right, Rect.bottom, min_def, max_def,
      c5_game] at h

end

end Pong
